import Mathlib

/-!
VM-exit handlers of vmm/vmexits.c.

A shallow embedding of the exit handlers of `src/vmm/vmexits.c`.  Machine
integers are natural numbers reduced modulo `2 ^ 64` or `2 ^ 32` where the C
type wraps.  The handlers mutate a trap frame, the VMCS and kernel state in
place; here each of them takes the pieces it touches and returns the new
ones together with its `bool` result.
-/

namespace Vmexits

/-! ## Constants and helpers of headers outside vmm/vmexits.c -/

/-- Constants, structure sizes and inline address helpers that vmexits.c takes
from headers which are not part of the sources at hand (inc/memlayout.h,
inc/mmu.h, inc/error.h, inc/env.h, kern/console.h, kern/kclock.h,
kern/multiboot.h, kern/pmap.h, vmm/vmx.h, vmm/ept.h).  The handlers are
parametric in them. -/
structure Consts where
  PGSIZE : Nat
  KERNBASE : Nat
  CGA_BUF : Nat
  __EPTE_FULL : Nat
  page2kva : Nat → Nat
  IO_RTC : Int
  NVRAM_BASELO : Int
  NVRAM_BASEHI : Int
  NVRAM_EXTLO : Int
  NVRAM_EXTHI : Int
  E_INVAL : Int
  ENV_TYPE_FS : Nat
  ENV_TYPE_USER : Nat
  ENV_NOT_RUNNABLE : Nat
  NENV : Nat
  VMX_VMCALL_MBMAP : Nat
  VMX_VMCALL_IPCSEND : Nat
  VMX_VMCALL_IPCRECV : Nat
  VMX_VMCALL_LAPICEOI : Nat
  VMX_VMCALL_BACKTOHOST : Nat
  VMX_VMCALL_GETDISKIMGNUM : Nat
  MB_FLAG_MMAP : Nat
  MB_TYPE_USABLE : Nat
  MB_TYPE_RESERVED : Nat
  sizeof_multiboot_info_t : Nat
  sizeof_memory_map_t : Nat
  EFER_MSR : Nat
  EFER_LME : Nat
  VMCS_PROC_BASED_VMEXEC_CTL_INTRWINEXIT : Nat
  /-- The call numbers label the cases of one `switch`, so no two are equal. -/
  vmcall_nodup : [VMX_VMCALL_MBMAP, VMX_VMCALL_IPCSEND, VMX_VMCALL_IPCRECV,
    VMX_VMCALL_LAPICEOI, VMX_VMCALL_BACKTOHOST, VMX_VMCALL_GETDISKIMGNUM].Nodup

/-- Value of a C expression stored into a `uint64_t`. -/
def u64 (n : Nat) : Nat := n % 2 ^ 64

/-- Value of a C expression stored into a `uint32_t`. -/
def u32 (n : Nat) : Nat := n % 2 ^ 32

/-- The macro `ROUNDDOWN(a, n)` of inc/types.h: `a - a % n`. -/
def ROUNDDOWN (a n : Nat) : Nat := a - a % n

/-- Why a handler did not return: a failed `assert` or a dereference of a
null pointer, which stop the kernel, or a blocking receive that gave the
processor to another environment. -/
inductive Fault where
  | assert_failed
  | null_deref
  | rescheduled
  deriving DecidableEq, Repr

/-! ## Kernel state shared with the memory subsystem -/

/-- Kernel memory state the handlers reach through kern/pmap.h and vmm/ept.h:
the reference counts of `struct PageInfo`, the allocator's free list, the
guest's extended page table behind `eptrt` (page-aligned guest physical
address to host virtual address and access rights), and whether the
Translation Bridge can still obtain table frames. -/
structure Mem where
  pp_ref : Nat → Nat
  page_free_list : List Nat
  ept : Nat → Option (Nat × Nat)
  ept_nomem : Bool

/-- Modelled from the spec: `page_alloc` of kern/pmap.c is missing; the global
allocator hands out one physical frame, or none (a null pointer) when it is
exhausted.  The frame leaves the free list; its reference count is not
touched. -/
def page_alloc (m : Mem) : Option Nat × Mem :=
  match m.page_free_list with
  | [] => (none, m)
  | p :: rest => (some p, { m with page_free_list := rest })

/-- The statement `p->pp_ref += 1` on frame `p`.  The width of `pp_ref` is
declared in a header outside vmexits.c; a frame that the allocator has just
handed out is far from the top of its range, so the count is not reduced. -/
def pp_ref_incr (m : Mem) (p : Nat) : Mem :=
  { m with pp_ref := fun q => if q = p then m.pp_ref q + 1 else m.pp_ref q }

/-- Modelled from the spec: `ept_map_hva2gpa` of vmm/ept.c is missing; the
Translation Bridge maps a host address into the guest's second-level address
space at the page of `gpa` with rights `perm`.  It returns 0 on success and a
negative code when it cannot obtain a table frame or when, with
`overwrite = 0`, the page already has a translation; a failed call changes
nothing. -/
def ept_map_hva2gpa (k : Consts) (m : Mem) (hva gpa perm : Nat) (overwrite : Bool) :
    Int × Mem :=
  let pg := ROUNDDOWN gpa k.PGSIZE
  if m.ept_nomem then (-1, m)
  else if (m.ept pg).isSome && !overwrite then (-1, m)
  else (0, { m with ept := fun a => if a = pg then some (hva, perm) else m.ept a })

/-- Modelled from the spec: `ept_gpa2hva` of vmm/ept.c is missing; the
Translation Bridge resolves a guest physical address to the host virtual
address backing it, or to null (0) when the page has no translation. -/
def ept_gpa2hva (k : Consts) (m : Mem) (gpa : Nat) : Nat :=
  match m.ept (ROUNDDOWN gpa k.PGSIZE) with
  | some (hva, _) => u64 (hva + gpa % k.PGSIZE)
  | none => 0

/-- An access of the guest to `gpa` raises a second-level translation fault
when the page of `gpa` has no translation or the translation lacks one of
the requested rights. -/
def ept_faults (k : Consts) (m : Mem) (gpa access : Nat) : Bool :=
  match m.ept (ROUNDDOWN gpa k.PGSIZE) with
  | some (_, perm) => perm &&& access != access
  | none => true

/-- One entry of the virtual MSR store (`struct vmx_msr_entry`). -/
structure vmx_msr_entry where
  msr_index : Nat
  msr_value : Nat
  deriving DecidableEq, Repr

/-- The part of `struct VmxGuestInfo` the handlers read: the configured
physical size of the guest (a non-negative 64-bit quantity) and the virtual
MSR store. -/
structure VmxGuestInfo where
  phys_sz : Nat
  msr_count : Int
  msr_guest_area : List vmx_msr_entry

/-- The registers of `tf->tf_regs` the handlers touch. -/
structure PushRegs where
  reg_rax : Nat
  reg_rbx : Nat
  reg_rcx : Nat
  reg_rdx : Nat
  reg_rsi : Nat
  deriving DecidableEq, Repr

/-- The guest register snapshot (`struct Trapframe`). -/
structure Trapframe where
  tf_regs : PushRegs
  tf_rip : Nat
  deriving DecidableEq, Repr

/-- The VMCS fields the handlers read or write, named by their encodings. -/
structure Vmcs where
  VMCS_32BIT_VMEXIT_INSTRUCTION_LENGTH : Nat
  VMCS_64BIT_GUEST_PHYSICAL_ADDR : Nat
  VMCS_VMEXIT_QUALIFICATION : Nat
  VMCS_GUEST_RFLAGS : Nat
  VMCS_32BIT_CONTROL_PROCESSOR_BASED_VMEXEC_CONTROLS : Nat
  VMCS_32BIT_CONTROL_VMENTRY_INTERRUPTION_INFO : Nat
  VMCS_32BIT_CONTROL_VMENTRY_CONTROLS : Nat
  deriving DecidableEq, Repr

/-- The accessor `vmcs_read32`: the field as a `uint32_t`. -/
def vmcs_read32 (field : Nat) : Nat := u32 field

/-- The accessor `vmcs_read64`: the field as a `uint64_t`. -/
def vmcs_read64 (field : Nat) : Nat := u64 field

/-- The statement `tf->tf_rip += vmcs_read32(VMCS_32BIT_VMEXIT_INSTRUCTION_LENGTH)`. -/
def advance_rip (tf : Trapframe) (vmcs : Vmcs) : Trapframe :=
  { tf with tf_rip := u64 (tf.tf_rip + vmcs_read32 vmcs.VMCS_32BIT_VMEXIT_INSTRUCTION_LENGTH) }

/-! ## The disk image counter and the MSR store (lines 18-41) -/

/-- Value of a signed C expression stored into an `int` (32 bits, two's
complement). -/
def sint32 (i : Int) : Int := (i + 2 ^ 31) % 2 ^ 32 - 2 ^ 31

/-- The initial value of the static `vmdisk_number` (line 18). -/
def vmdisk_number_init : Int := 0

/-- The function `vmx_get_vmdisk_number` on the static `vmdisk_number`. -/
def vmx_get_vmdisk_number (vmdisk_number : Int) : Int := vmdisk_number

/-- The function `vmx_incr_vmdisk_number`: the new value of the static
`vmdisk_number`. -/
def vmx_incr_vmdisk_number (vmdisk_number : Int) : Int := sint32 (vmdisk_number + 1)

/-- The static `vmdisk_number` after `n` calls of `vmx_incr_vmdisk_number`
from its initial value. -/
def vmdisk_after : Nat → Int
  | 0 => vmdisk_number_init
  | n + 1 => vmx_incr_vmdisk_number (vmdisk_after n)

/-- The loop of `find_msr_in_region` with `n` iterations left: every
iteration tests the same `entry`, which the loop never moves. -/
def find_msr_in_region_loop (msr_idx : Nat) (entry : vmx_msr_entry) :
    Nat → Option vmx_msr_entry
  | 0 => none
  | n + 1 =>
    if entry.msr_index = msr_idx then some entry else find_msr_in_region_loop msr_idx entry n

/-- The function `find_msr_in_region`: `some entry` stands for `true` with
`*msr_entry = entry`, `none` for `false`.  `entry` is the start of `area`;
an `area` without a first entry is taken with `area_sz <= 0`. -/
def find_msr_in_region (msr_idx : Nat) (area : List vmx_msr_entry) (area_sz : Int) :
    Option vmx_msr_entry :=
  match area with
  | [] => none
  | entry :: _ => find_msr_in_region_loop (u32 msr_idx) entry area_sz.toNat

/-! ## Interrupt injection (lines 43-83) -/

/-- The function `handle_interrupt_window`: the trap frame, which it does not
touch, and the VMCS after its two writes. -/
def handle_interrupt_window (k : Consts) (tf : Trapframe) (vmcs : Vmcs) (host_vector : Nat) :
    Bool × Trapframe × Vmcs :=
  let procbased_ctls_or := vmcs_read32 vmcs.VMCS_32BIT_CONTROL_PROCESSOR_BASED_VMEXEC_CONTROLS
  let procbased_ctls_or :=
    procbased_ctls_or &&& (0xFFFFFFFF - u32 k.VMCS_PROC_BASED_VMEXEC_CTL_INTRWINEXIT)
  (true, tf,
    { vmcs with
        VMCS_32BIT_CONTROL_PROCESSOR_BASED_VMEXEC_CONTROLS := u32 procbased_ctls_or
        VMCS_32BIT_CONTROL_VMENTRY_INTERRUPTION_INFO := u32 host_vector })

/-- The function `handle_interrupts`: the trap frame, which it does not
touch, and the VMCS after its write. -/
def handle_interrupts (k : Consts) (tf : Trapframe) (vmcs : Vmcs) (host_vector : Nat) :
    Bool × Trapframe × Vmcs :=
  let rflags := vmcs_read64 vmcs.VMCS_GUEST_RFLAGS
  if rflags &&& (0x1 <<< 9) = 0 then
    let procbased_ctls_or := vmcs_read32 vmcs.VMCS_32BIT_CONTROL_PROCESSOR_BASED_VMEXEC_CONTROLS
    let procbased_ctls_or :=
      u32 (procbased_ctls_or ||| k.VMCS_PROC_BASED_VMEXEC_CTL_INTRWINEXIT)
    (true, tf,
      { vmcs with VMCS_32BIT_CONTROL_PROCESSOR_BASED_VMEXEC_CONTROLS := procbased_ctls_or })
  else
    (true, tf, { vmcs with VMCS_32BIT_CONTROL_VMENTRY_INTERRUPTION_INFO := u32 host_vector })

/-! ## MSR emulation (lines 85-136) -/

/-- The macro `BIT(val, x)` of vmm/vmx.h: bit `x` of `val`. -/
def BIT (val x : Nat) : Nat := (val >>> x) &&& 0x1

/-- The function `handle_rdmsr`. -/
def handle_rdmsr (k : Consts) (tf : Trapframe) (ginfo : VmxGuestInfo) (vmcs : Vmcs) :
    Except Fault (Bool × Trapframe) :=
  let msr := tf.tf_regs.reg_rcx
  if msr = k.EFER_MSR then
    match find_msr_in_region msr ginfo.msr_guest_area ginfo.msr_count with
    | none => .error Fault.assert_failed
    | some entry =>
      let val := entry.msr_value
      let tf1 : Trapframe :=
        { tf with tf_regs :=
            { tf.tf_regs with reg_rdx := u64 (val <<< 32), reg_rax := val &&& 0xFFFFFFFF } }
      .ok (true, advance_rip tf1 vmcs)
  else .ok (false, tf)

/-- The function `handle_wrmsr`; the entry it writes is the one
`find_msr_in_region` yields, the first of the store. -/
def handle_wrmsr (k : Consts) (tf : Trapframe) (ginfo : VmxGuestInfo) (vmcs : Vmcs) :
    Except Fault (Bool × Trapframe × VmxGuestInfo × Vmcs) :=
  let msr := tf.tf_regs.reg_rcx
  if msr = k.EFER_MSR then
    match find_msr_in_region msr ginfo.msr_guest_area ginfo.msr_count with
    | none => .error Fault.assert_failed
    | some entry =>
      let cur_val := entry.msr_value
      let new_val := u64 (tf.tf_regs.reg_rdx <<< 32) ||| tf.tf_regs.reg_rax
      let vmcs1 : Vmcs :=
        if BIT cur_val k.EFER_LME = 0 ∧ BIT new_val k.EFER_LME = 1 then
          let entry_ctls := vmcs_read32 vmcs.VMCS_32BIT_CONTROL_VMENTRY_CONTROLS
          { vmcs with VMCS_32BIT_CONTROL_VMENTRY_CONTROLS := u32 entry_ctls }
        else vmcs
      let area1 := { entry with msr_value := new_val } :: ginfo.msr_guest_area.tail
      .ok (true, advance_rip tf vmcs1, { ginfo with msr_guest_area := area1 }, vmcs1)
  else .ok (false, tf, ginfo, vmcs)

/-! ## handle_eptviolation (lines 138-168) -/

/-- The faulting guest physical address, as `handle_eptviolation` reads it. -/
def fault_gpa (vmcs : Vmcs) : Nat := vmcs_read64 vmcs.VMCS_64BIT_GUEST_PHYSICAL_ADDR

/-- The function `handle_eptviolation`. -/
def handle_eptviolation (k : Consts) (vmcs : Vmcs) (ginfo : VmxGuestInfo) (m : Mem) :
    Except Fault (Bool × Mem) :=
  let gpa := fault_gpa vmcs
  if gpa < 0xA0000 ∨ (gpa ≥ 0x100000 ∧ gpa < ginfo.phys_sz) then
    match page_alloc m with
    | (none, m1) => .ok (false, m1)
    | (some p, m1) =>
      let m2 := pp_ref_incr m1 p
      let (r, m3) :=
        ept_map_hva2gpa k m2 (k.page2kva p) (ROUNDDOWN gpa k.PGSIZE) k.__EPTE_FULL false
      if r ≥ 0 then .ok (true, m3) else .error Fault.assert_failed
  else if gpa ≥ k.CGA_BUF ∧ gpa < k.CGA_BUF + k.PGSIZE then
    let (r, m1) :=
      ept_map_hva2gpa k m (u64 (k.KERNBASE + k.CGA_BUF)) k.CGA_BUF k.__EPTE_FULL false
    if r ≥ 0 then .ok (true, m1) else .error Fault.assert_failed
  else
    .ok (false, m)

/-! ## handle_ioinstr (lines 170-224) -/

/-- Value of a C expression stored into an `int` (32 bits, two's complement). -/
def int32 (n : Nat) : Int :=
  if n % 2 ^ 32 < 2 ^ 31 then ((n % 2 ^ 32 : Nat) : Int) else ((n % 2 ^ 32 : Nat) : Int) - 2 ^ 32

/-- Value of a signed C expression stored into a `uint64_t`. -/
def wrap64 (i : Int) : Nat := (i % 2 ^ 64).toNat

/-- The expression `(ginfo->phys_sz / 1024) - 1024` as a 64-bit pattern. -/
def ext_kb (ginfo : VmxGuestInfo) : Nat := wrap64 (((ginfo.phys_sz / 1024 : Nat) : Int) - 1024)

/-- The local `port_number` of `handle_ioinstr`: bits 16..31 of the exit
qualification, as an `int`. -/
def port_number (vmcs : Vmcs) : Int :=
  ((((vmcs_read64 vmcs.VMCS_VMEXIT_QUALIFICATION) >>> 16) &&& 0xFFFF : Nat) : Int)

/-- The local `is_in` of `handle_ioinstr`: bit 3 of the exit qualification,
set for a read from the port. -/
def is_in (vmcs : Vmcs) : Bool := BIT (vmcs_read64 vmcs.VMCS_VMEXIT_QUALIFICATION) 3 != 0

/-- The function `handle_ioinstr`; its `static int port_iortc` is passed in
and returned as the third component. -/
def handle_ioinstr (k : Consts) (tf : Trapframe) (ginfo : VmxGuestInfo) (vmcs : Vmcs)
    (port_iortc : Int) : Bool × Trapframe × Int :=
  let port_number := port_number vmcs
  let is_in := is_in vmcs
  let (handled, tf1, latch1) : Bool × Trapframe × Int :=
    if port_number = k.IO_RTC then
      if !is_in then (true, tf, int32 tf.tf_regs.reg_rax) else (false, tf, port_iortc)
    else if port_number = k.IO_RTC + 1 then
      if is_in then
        if port_iortc = k.NVRAM_BASELO then
          (true, { tf with tf_regs := { tf.tf_regs with reg_rax := 640 &&& 0xFF } }, port_iortc)
        else if port_iortc = k.NVRAM_BASEHI then
          (true, { tf with tf_regs := { tf.tf_regs with reg_rax := (640 >>> 8) &&& 0xFF } },
            port_iortc)
        else if port_iortc = k.NVRAM_EXTLO then
          (true, { tf with tf_regs := { tf.tf_regs with reg_rax := ext_kb ginfo &&& 0xFF } },
            port_iortc)
        else if port_iortc = k.NVRAM_EXTHI then
          (true,
            { tf with tf_regs := { tf.tf_regs with reg_rax := (ext_kb ginfo >>> 8) &&& 0xFF } },
            port_iortc)
        else (false, tf, port_iortc)
      else (false, tf, port_iortc)
    else (false, tf, port_iortc)
  if handled then (true, advance_rip tf1 vmcs, latch1) else (false, tf1, latch1)

/-! ## handle_cpuid (lines 236-264) -/

/-- What the `cpuid` instruction leaves in eax, ebx, ecx, edx. -/
structure CpuidRegs where
  eax : Nat
  ebx : Nat
  ecx : Nat
  edx : Nat
  deriving DecidableEq, Repr

/-- The function `handle_cpuid`; `cpuid` is the hardware instruction, from the
requested leaf to the four registers it fills. -/
def handle_cpuid (cpuid : Nat → CpuidRegs) (tf : Trapframe) (vmcs : Vmcs) : Bool × Trapframe :=
  let info := u32 tf.tf_regs.reg_rax
  let eax := u32 (cpuid info).eax
  let ebx := u32 (cpuid info).ebx
  let ecx := u32 (cpuid info).ecx
  let edx := u32 (cpuid info).edx
  let ecx := if info ≠ 0 then ecx &&& 0xFFFFFFDF else ecx
  let tf1 : Trapframe :=
    { tf with tf_regs :=
        { tf.tf_regs with reg_rax := eax, reg_rbx := ebx, reg_rcx := ecx, reg_rdx := edx } }
  (true, advance_rip tf1 vmcs)

/-! ## handle_vmcall (lines 276-464) -/

/-- The fields of `multiboot_info_t` that the memory-map call sets; every
other field keeps the zero of the `memset`. -/
structure multiboot_info_t where
  flags : Nat
  mmap_length : Nat
  mmap_addr : Nat
  deriving DecidableEq, Repr

/-- One entry of the memory map (`memory_map_t`). -/
structure memory_map_t where
  size : Nat
  base_addr_low : Nat
  base_addr_high : Nat
  length_low : Nat
  length_high : Nat
  type : Nat
  deriving DecidableEq, Repr

/-- An object copied into guest-visible memory. -/
inductive Blob where
  | mbinfo (b : multiboot_info_t)
  | mmap (e : memory_map_t)
  deriving DecidableEq, Repr

/-- Effects of a handler outside the trap frame and the memory state: a
`memcpy` of `n` bytes to a host virtual address, and calls of host services. -/
inductive Effect where
  | memcpy (dst : Nat) (src : Blob) (n : Nat)
  | sys_ipc_try_send (dstenv : Int) (value : Nat) (hva : Nat) (perm : Nat)
  | sys_ipc_recv (dstva : Nat)
  | lapic_eoi
  | env_create_user_sh (env_type : Nat)
  deriving DecidableEq, Repr

/-- Kernel state around `handle_vmcall`: the memory state, the effects so far
(oldest first), `envs[i].env_type`, the fields of `curenv` that are written,
the static `vmdisk_number`, and the host messaging primitives.
Modelled from the spec: `sys_ipc_try_send` and `sys_ipc_recv` of
kern/syscall.c are missing; the send yields a result code, the receive either
completes with a result code and the value left in `curenv->env_ipc_value`,
or gives up the processor. -/
structure Kernel where
  mem : Mem
  effects : List Effect
  env_type : Nat → Nat
  curenv_status : Nat
  curenv_ipc_value : Nat
  vmdisk_number : Int
  sys_ipc_try_send : Int → Nat → Nat → Nat → Int
  sys_ipc_recv : Nat → Option (Int × Nat)

/-- The locals `mbinfo`, `lomap`, `iohole`, `himap` of the memory-map call. -/
structure MbMap where
  mbinfo : multiboot_info_t
  lomap : memory_map_t
  iohole : memory_map_t
  himap : memory_map_t
  deriving DecidableEq, Repr

/-- Lines 305-346: the multiboot header and the three segments. -/
def build_mbmap (k : Consts) (gInfo : VmxGuestInfo) : MbMap :=
  let multiboot_map_addr := 0x6000
  let mbinfo : multiboot_info_t :=
    { flags := u32 (0 ||| k.MB_FLAG_MMAP)
      mmap_length := u32 (3 * k.sizeof_memory_map_t)
      mmap_addr := u32 (multiboot_map_addr + k.sizeof_multiboot_info_t) }
  let lomap : memory_map_t :=
    { size := u32 k.sizeof_memory_map_t, base_addr_low := 0, base_addr_high := 0
      length_low := u32 (640 * 1024), length_high := 0, type := u32 k.MB_TYPE_USABLE }
  let iohole : memory_map_t :=
    { size := u32 k.sizeof_memory_map_t, base_addr_low := u32 (640 * 1024), base_addr_high := 0
      length_low := u32 (1024 * 1024 - 640 * 1024), length_high := 0
      type := u32 k.MB_TYPE_RESERVED }
  let himap_addr := wrap64 ((gInfo.phys_sz : Int) - 1024 * 1024)
  let himap : memory_map_t :=
    { size := u32 k.sizeof_memory_map_t, base_addr_low := u32 (1024 * 1024), base_addr_high := 0
      length_low := u32 himap_addr, length_high := u32 (himap_addr >>> 32)
      type := u32 k.MB_TYPE_USABLE }
  { mbinfo := mbinfo, lomap := lomap, iohole := iohole, himap := himap }

/-- Lines 368-374: the four `memcpy` calls, `hva` advancing by the size of
what was copied. -/
def copy_mbmap (k : Consts) (mb : MbMap) (hva : Nat) : List Effect :=
  let hva1 := u64 (hva + k.sizeof_multiboot_info_t)
  let hva2 := u64 (hva1 + k.sizeof_memory_map_t)
  let hva3 := u64 (hva2 + k.sizeof_memory_map_t)
  [ Effect.memcpy hva (Blob.mbinfo mb.mbinfo) k.sizeof_multiboot_info_t,
    Effect.memcpy hva1 (Blob.mmap mb.lomap) k.sizeof_memory_map_t,
    Effect.memcpy hva2 (Blob.mmap mb.iohole) k.sizeof_memory_map_t,
    Effect.memcpy hva3 (Blob.mmap mb.himap) k.sizeof_memory_map_t ]

/-- Lines 400-407: the scan of `envs[0 .. NENV)` for the first environment of
type `ENV_TYPE_FS`, from index `i` with `n` indices left; `none` is the
initial `dstenv = -1`. -/
def find_fs_env (k : Consts) (env_type : Nat → Nat) (i : Nat) : Nat → Option Nat
  | 0 => none
  | n + 1 => if env_type i = k.ENV_TYPE_FS then some i else find_fs_env k env_type (i + 1) n

/-- How a case of the `switch` is left: by `break` with the current value of
`handled`, or by a `return` of a value converted to `bool`. -/
inductive CaseExit where
  | brk (handled : Bool)
  | ret (value : Bool)
  deriving DecidableEq, Repr

/-- The `switch` of `handle_vmcall` (lines 286-452). -/
def handle_vmcall_switch (k : Consts) (tf : Trapframe) (gInfo : VmxGuestInfo) (vmcs : Vmcs)
    (s : Kernel) : Except Fault (CaseExit × Trapframe × Kernel) :=
  let multiboot_map_addr := 0x6000
  let call := tf.tf_regs.reg_rax
  if call = k.VMX_VMCALL_MBMAP then
    let mb := build_mbmap k gInfo
    let finish (hva : Nat) (m : Mem) : Except Fault (CaseExit × Trapframe × Kernel) :=
      .ok (CaseExit.brk true,
        { tf with tf_regs := { tf.tf_regs with reg_rbx := multiboot_map_addr } },
        { s with mem := m, effects := s.effects ++ copy_mbmap k mb hva })
    let hva := ept_gpa2hva k s.mem multiboot_map_addr
    if hva = 0 then
      match page_alloc s.mem with
      | (none, _) => .error Fault.null_deref
      | (some p, m1) =>
        let m2 := pp_ref_incr m1 p
        let hva := k.page2kva p
        let (r, m3) := ept_map_hva2gpa k m2 hva multiboot_map_addr k.__EPTE_FULL false
        if r < 0 then .ok (CaseExit.ret (decide (r ≠ 0)), tf, { s with mem := m3 })
        else finish hva m3
    else finish hva s.mem
  else if call = k.VMX_VMCALL_IPCSEND then
    let dstenv_type := u32 tf.tf_regs.reg_rbx
    if dstenv_type ≠ k.ENV_TYPE_FS then .ok (CaseExit.ret (decide (k.E_INVAL ≠ 0)), tf, s)
    else
      match find_fs_env k s.env_type 0 k.NENV with
      | none => .ok (CaseExit.ret (decide (k.E_INVAL ≠ 0)), tf, s)
      | some i =>
        let dstenv : Int := i
        let value := u32 tf.tf_regs.reg_rcx
        let pa := tf.tf_regs.reg_rdx
        let perm := u32 tf.tf_regs.reg_rsi
        let hva := ept_gpa2hva k s.mem pa
        if hva = 0 then .ok (CaseExit.ret (decide (-k.E_INVAL ≠ 0)), tf, s)
        else
          .ok (CaseExit.brk true,
            { tf with tf_regs :=
                { tf.tf_regs with reg_rax := wrap64 (s.sys_ipc_try_send dstenv value hva perm) } },
            { s with effects := s.effects ++ [Effect.sys_ipc_try_send dstenv value hva perm] })
  else if call = k.VMX_VMCALL_IPCRECV then
    let tf1 := advance_rip tf vmcs
    match s.sys_ipc_recv tf1.tf_regs.reg_rbx with
    | none => .error Fault.rescheduled
    | some (r, v) =>
      .ok (CaseExit.brk false,
        { tf1 with tf_regs := { tf1.tf_regs with reg_rax := wrap64 r, reg_rsi := u32 v } },
        { s with effects := s.effects ++ [Effect.sys_ipc_recv tf1.tf_regs.reg_rbx],
                 curenv_ipc_value := u32 v })
  else if call = k.VMX_VMCALL_LAPICEOI then
    .ok (CaseExit.brk true, tf, { s with effects := s.effects ++ [Effect.lapic_eoi] })
  else if call = k.VMX_VMCALL_BACKTOHOST then
    .ok (CaseExit.brk true, tf,
      { s with curenv_status := k.ENV_NOT_RUNNABLE,
               effects := s.effects ++ [Effect.env_create_user_sh k.ENV_TYPE_USER] })
  else if call = k.VMX_VMCALL_GETDISKIMGNUM then
    .ok (CaseExit.brk true,
      { tf with tf_regs := { tf.tf_regs with reg_rax := wrap64 s.vmdisk_number } }, s)
  else
    .ok (CaseExit.brk false, tf, s)

/-- The function `handle_vmcall`: the `switch`, then the advance of `rip`
when `handled` is set (lines 453-463). -/
def handle_vmcall (k : Consts) (tf : Trapframe) (gInfo : VmxGuestInfo) (vmcs : Vmcs)
    (s : Kernel) : Except Fault (Bool × Trapframe × Kernel) :=
  match handle_vmcall_switch k tf gInfo vmcs s with
  | .error f => .error f
  | .ok (CaseExit.ret value, tf1, s1) => .ok (value, tf1, s1)
  | .ok (CaseExit.brk handled, tf1, s1) =>
    if handled then .ok (true, advance_rip tf1 vmcs, s1) else .ok (false, tf1, s1)

/-! ## A concrete platform -/

/-- Modelled from the spec: the headers that define these constants are
missing.  The RTC index bytes 0x0F, 0x10, 0x30, 0x31 are the ones the spec
names for the base and extended memory registers; the other values are the
customary ones of the platform (4 KiB pages, colour text buffer at 0xB8000,
RTC at port 0x70, multiboot memory-map flag 0x40 with types 1 and 2, EFER at
0xC0000080 with long-mode enable in bit 8, interrupt-window exiting in bit 2
of the processor-based controls). -/
def spec_consts : Consts where
  PGSIZE := 4096
  KERNBASE := 0x8004000000
  CGA_BUF := 0xB8000
  __EPTE_FULL := 7
  page2kva := fun p => 0x8004000000 + p * 4096
  IO_RTC := 0x70
  NVRAM_BASELO := 0x0F
  NVRAM_BASEHI := 0x10
  NVRAM_EXTLO := 0x30
  NVRAM_EXTHI := 0x31
  E_INVAL := 3
  ENV_TYPE_FS := 2
  ENV_TYPE_USER := 0
  ENV_NOT_RUNNABLE := 4
  NENV := 1024
  VMX_VMCALL_MBMAP := 1
  VMX_VMCALL_IPCSEND := 2
  VMX_VMCALL_IPCRECV := 3
  VMX_VMCALL_LAPICEOI := 4
  VMX_VMCALL_BACKTOHOST := 5
  VMX_VMCALL_GETDISKIMGNUM := 6
  MB_FLAG_MMAP := 0x40
  MB_TYPE_USABLE := 1
  MB_TYPE_RESERVED := 2
  sizeof_multiboot_info_t := 88
  sizeof_memory_map_t := 24
  EFER_MSR := 0xC0000080
  EFER_LME := 8
  VMCS_PROC_BASED_VMEXEC_CTL_INTRWINEXIT := 0x4
  vmcall_nodup := by decide

/-- A memory state with two free frames and an empty extended page table. -/
def mem0 : Mem :=
  { pp_ref := fun _ => 0, page_free_list := [5, 6], ept := fun _ => none, ept_nomem := false }

/-- A VMCS whose exit information reports a fault at `gpa`. -/
def vmcs_fault (gpa : Nat) : Vmcs :=
  { VMCS_32BIT_VMEXIT_INSTRUCTION_LENGTH := 3
    VMCS_64BIT_GUEST_PHYSICAL_ADDR := gpa
    VMCS_VMEXIT_QUALIFICATION := 0
    VMCS_GUEST_RFLAGS := 0
    VMCS_32BIT_CONTROL_PROCESSOR_BASED_VMEXEC_CONTROLS := 0
    VMCS_32BIT_CONTROL_VMENTRY_INTERRUPTION_INFO := 0
    VMCS_32BIT_CONTROL_VMENTRY_CONTROLS := 0 }

/-- A VMCS whose exit information reports a 1-byte port access with the
given exit qualification. -/
def vmcs_io (qualification : Nat) : Vmcs :=
  { VMCS_32BIT_VMEXIT_INSTRUCTION_LENGTH := 1
    VMCS_64BIT_GUEST_PHYSICAL_ADDR := 0
    VMCS_VMEXIT_QUALIFICATION := qualification
    VMCS_GUEST_RFLAGS := 0
    VMCS_32BIT_CONTROL_PROCESSOR_BASED_VMEXEC_CONTROLS := 0
    VMCS_32BIT_CONTROL_VMENTRY_INTERRUPTION_INFO := 0
    VMCS_32BIT_CONTROL_VMENTRY_CONTROLS := 0 }

/-- A VMCS reporting a write to the index port 0x70 of `spec_consts`: the
port number sits in bits 16..31 of the qualification, bit 3 is clear. -/
def vmcs_rtc_index_write : Vmcs := vmcs_io 0x700000

/-- A VMCS reporting a read from the data port 0x71 of `spec_consts`: bit 3
of the qualification is set. -/
def vmcs_rtc_data_read : Vmcs := vmcs_io 0x710008

/-- A trap frame with the given `rax`, `rbx` and `rip`, the other registers 0. -/
def tf_of (rax rbx rip : Nat) : Trapframe :=
  { tf_regs := { reg_rax := rax, reg_rbx := rbx, reg_rcx := 0, reg_rdx := 0, reg_rsi := 0 }
    tf_rip := rip }

/-- A guest of the given physical size with an empty MSR store. -/
def guest_of_size (phys_sz : Nat) : VmxGuestInfo :=
  { phys_sz := phys_sz, msr_count := 0, msr_guest_area := [] }

/-- The `bool` a handler returned, if it returned. -/
def returned {α : Type} (r : Except Fault (Bool × α)) : Option Bool :=
  match r with
  | .ok (b, _) => some b
  | .error _ => none

/-- The translation of page `a` after `handle_eptviolation` returned. -/
def ept_after (r : Except Fault (Bool × Mem)) (a : Nat) : Option (Nat × Nat) :=
  match r with
  | .ok (_, m) => m.ept a
  | .error _ => none

/-- The VGA window is one page-aligned page inside the I/O hole
[640 KiB, 1 MiB) and its kernel view `KERNBASE + CGA_BUF` is a 64-bit
address. -/
def vga_window_ok (k : Consts) : Prop :=
  0xA0000 ≤ k.CGA_BUF ∧ k.CGA_BUF + k.PGSIZE ≤ 0x100000 ∧ k.CGA_BUF % k.PGSIZE = 0 ∧
    k.KERNBASE + k.CGA_BUF < 2 ^ 64

instance (k : Consts) : Decidable (vga_window_ok k) := by
  unfold vga_window_ok; infer_instance

/-- A kernel state over `mem0` with no effects yet, whose environment 1 is
the file system, and whose messaging primitives answer 0. -/
def kernel0 : Kernel :=
  { mem := mem0
    effects := []
    env_type := fun i => if i = 1 then 2 else 0
    curenv_status := 0
    curenv_ipc_value := 0
    vmdisk_number := 0
    sys_ipc_try_send := fun _ _ _ _ => 0
    sys_ipc_recv := fun _ => some (0, 0) }

/-- The trap frame after a handler returned. -/
def tf_after (r : Except Fault (Bool × Trapframe × Kernel)) : Option Trapframe :=
  match r with
  | .ok (_, tf, _) => some tf
  | .error _ => none

/-- The effects recorded after a handler returned. -/
def effects_after (r : Except Fault (Bool × Trapframe × Kernel)) : Option (List Effect) :=
  match r with
  | .ok (_, _, s) => some s.effects
  | .error _ => none

/-- The header constants and sizes of the memory map fit their 32-bit
fields. -/
def mb_fits (k : Consts) : Prop :=
  k.MB_FLAG_MMAP < 2 ^ 32 ∧ k.MB_TYPE_USABLE < 2 ^ 32 ∧ k.MB_TYPE_RESERVED < 2 ^ 32 ∧
    3 * k.sizeof_memory_map_t < 2 ^ 32 ∧ 0x6000 + k.sizeof_multiboot_info_t < 2 ^ 32

instance (k : Consts) : Decidable (mb_fits k) := by
  unfold mb_fits; infer_instance

/-- A backing frame for guest physical address 0x6000 is resident at host
address `hva` (the memory state stays `m`), or none is resident and the
allocator yields a frame whose kernel address `hva` the mapping primitive
maps at 0x6000, giving the memory state `m2`. -/
def mbmap_backing (k : Consts) (m : Mem) (hva : Nat) (m2 : Mem) : Prop :=
  (ept_gpa2hva k m 0x6000 ≠ 0 ∧ hva = ept_gpa2hva k m 0x6000 ∧ m2 = m) ∨
  (ept_gpa2hva k m 0x6000 = 0 ∧ ∃ p m1, page_alloc m = (some p, m1) ∧ hva = k.page2kva p ∧
    0 ≤ (ept_map_hva2gpa k (pp_ref_incr m1 p) hva 0x6000 k.__EPTE_FULL false).1 ∧
    m2 = (ept_map_hva2gpa k (pp_ref_incr m1 p) hva 0x6000 k.__EPTE_FULL false).2)

/-- The 64-bit length `length_high:length_low` of a memory-map entry. -/
def length64 (e : memory_map_t) : Nat := e.length_high * 2 ^ 32 + e.length_low

/-- The memory-map entries among a list of effects, in the order copied. -/
def written_entries : List Effect → List memory_map_t
  | [] => []
  | Effect.memcpy _ (Blob.mmap e) _ :: rest => e :: written_entries rest
  | _ :: rest => written_entries rest

/-- The memory-map entries a call copied out: those among the effects it
added to the ones of the state `before` it. -/
def entries_written (before : Kernel) (r : Except Fault (Bool × Trapframe × Kernel)) :
    List memory_map_t :=
  match r with
  | .ok (_, _, s) => written_entries (s.effects.drop before.effects.length)
  | .error _ => []

/-- Why a handler did not return, if it did not. -/
def faulted {α : Type} (r : Except Fault α) : Option Fault :=
  match r with
  | .ok _ => none
  | .error f => some f

/-- A guest whose MSR store is the given list of entries, all counted. -/
def guest_with_msrs (area : List vmx_msr_entry) : VmxGuestInfo :=
  { phys_sz := 0x4000000, msr_count := area.length, msr_guest_area := area }

/-- A trap frame of an MSR access: index in `rcx`, value halves in `rax` and
`rdx`. -/
def tf_msr (rcx rax rdx : Nat) : Trapframe :=
  { tf_regs := { reg_rax := rax, reg_rbx := 0, reg_rcx := rcx, reg_rdx := rdx, reg_rsi := 0 }
    tf_rip := 0x1000 }

/-- The VM-entry controls after `handle_wrmsr` returned. -/
def entry_ctls_after (r : Except Fault (Bool × Trapframe × VmxGuestInfo × Vmcs)) : Option Nat :=
  match r with
  | .ok (_, _, _, vmcs) => some vmcs.VMCS_32BIT_CONTROL_VMENTRY_CONTROLS
  | .error _ => none

/-- The MSR store after `handle_wrmsr` returned. -/
def store_after (r : Except Fault (Bool × Trapframe × VmxGuestInfo × Vmcs)) :
    Option (List vmx_msr_entry) :=
  match r with
  | .ok (_, _, ginfo, _) => some ginfo.msr_guest_area
  | .error _ => none

/-- The trap frame after `handle_wrmsr` returned. -/
def wrmsr_tf_after (r : Except Fault (Bool × Trapframe × VmxGuestInfo × Vmcs)) :
    Option Trapframe :=
  match r with
  | .ok (_, tf, _, _) => some tf
  | .error _ => none

/-- The trap frame that `handle_rdmsr` on `tf_r` leaves when it runs on the
store and VMCS that `handle_wrmsr` on `tf_w` left. -/
def rdmsr_after_wrmsr (k : Consts) (tf_w tf_r : Trapframe) (ginfo : VmxGuestInfo)
    (vmcs : Vmcs) : Option Trapframe :=
  match handle_wrmsr k tf_w ginfo vmcs with
  | .ok (_, _, ginfo1, vmcs1) =>
    match handle_rdmsr k tf_r ginfo1 vmcs1 with
    | .ok (_, tf) => some tf
    | .error _ => none
  | .error _ => none

/-- A kernel state like `kernel0` in which no environment has the file
system type. -/
def kernel_no_fs : Kernel := { kernel0 with env_type := fun _ => 0 }

/-- A kernel state like `kernel0` whose receive completes with result 0 and
leaves the value 42. -/
def kernel_recv : Kernel := { kernel0 with sys_ipc_recv := fun _ => some (0, 42) }

/-- A VMCS with the given `RFLAGS` and processor-based controls. -/
def vmcs_intr (rflags ctls : Nat) : Vmcs :=
  { VMCS_32BIT_VMEXIT_INSTRUCTION_LENGTH := 0
    VMCS_64BIT_GUEST_PHYSICAL_ADDR := 0
    VMCS_VMEXIT_QUALIFICATION := 0
    VMCS_GUEST_RFLAGS := rflags
    VMCS_32BIT_CONTROL_PROCESSOR_BASED_VMEXEC_CONTROLS := ctls
    VMCS_32BIT_CONTROL_VMENTRY_INTERRUPTION_INFO := 0
    VMCS_32BIT_CONTROL_VMENTRY_CONTROLS := 0 }

/-- A kernel state like `kernel0` whose allocator has no free frame. -/
def kernel_no_frames : Kernel := { kernel0 with mem := { mem0 with page_free_list := [] } }

/-- A kernel state like `kernel0` whose Translation Bridge cannot obtain a
table frame, so that mapping a new page fails. -/
def kernel_no_tables : Kernel := { kernel0 with mem := { mem0 with ept_nomem := true } }

/-! ## Lemmas on the memory primitives -/

theorem ROUNDDOWN_idem (a n : Nat) : ROUNDDOWN (ROUNDDOWN a n) n = ROUNDDOWN a n := by
  unfold ROUNDDOWN
  rcases Nat.eq_zero_or_pos n with h | h
  · subst h; simp
  · have h1 : (a - a % n) % n = 0 := by
      have h2 : a - a % n = n * (a / n) := by
        have := Nat.div_add_mod a n
        omega
      rw [h2]; exact Nat.mul_mod_right n (a / n)
    rw [h1]; simp

theorem ROUNDDOWN_window (c n a : Nat) (hc : c % n = 0) (h1 : c ≤ a) (h2 : a < c + n) :
    ROUNDDOWN a n = c := by
  unfold ROUNDDOWN
  obtain ⟨d, rfl⟩ := Nat.exists_eq_add_of_le h1
  have hd : d < n := by omega
  have h3 : (c + d) % n = d := by
    rw [Nat.add_mod, hc, Nat.zero_add, Nat.mod_mod, Nat.mod_eq_of_lt hd]
  rw [h3]; omega

theorem ept_map_hva2gpa_ok (k : Consts) (m : Mem) (hva gpa perm : Nat) (ow : Bool)
    (h : 0 ≤ (ept_map_hva2gpa k m hva gpa perm ow).1) :
    ept_map_hva2gpa k m hva gpa perm ow =
      (0, { m with ept := fun a =>
              if a = ROUNDDOWN gpa k.PGSIZE then some (hva, perm) else m.ept a }) := by
  unfold ept_map_hva2gpa at h ⊢
  by_cases h1 : m.ept_nomem = true
  · simp [h1] at h
  · by_cases h2 : ((m.ept (ROUNDDOWN gpa k.PGSIZE)).isSome && !ow) = true
    · simp [h1, h2] at h
    · simp [h1, h2]

theorem ept_map_hva2gpa_fail (k : Consts) (m : Mem) (hva gpa perm : Nat) (ow : Bool)
    (h : (ept_map_hva2gpa k m hva gpa perm ow).1 < 0) :
    ept_map_hva2gpa k m hva gpa perm ow = (-1, m) := by
  unfold ept_map_hva2gpa at h ⊢
  by_cases h1 : m.ept_nomem = true
  · simp [h1]
  · by_cases h2 : ((m.ept (ROUNDDOWN gpa k.PGSIZE)).isSome && !ow) = true
    · simp [h1, h2]
    · simp [h1, h2] at h

/-! ## Demand paging -/

/-- C1: when the faulting address is below 640 KiB or in [1 MiB, phys_sz),
`page_alloc` yields frame `p` and the mapping primitive succeeds, the handler
returns handled; the count of `p` is one higher and no other count changed;
the page of the faulting address maps to `page2kva p` with full rights and no
other translation changed; an access to the faulting address with any of the
full rights no longer faults. -/
theorem handle_eptviolation_backs_frame (k : Consts) (vmcs : Vmcs) (ginfo : VmxGuestInfo)
    (m m1 : Mem) (p : Nat)
    (hgpa : fault_gpa vmcs < 0xA0000 ∨
      (0x100000 ≤ fault_gpa vmcs ∧ fault_gpa vmcs < ginfo.phys_sz))
    (halloc : page_alloc m = (some p, m1))
    (hmap : 0 ≤ (ept_map_hva2gpa k (pp_ref_incr m1 p) (k.page2kva p)
      (ROUNDDOWN (fault_gpa vmcs) k.PGSIZE) k.__EPTE_FULL false).1) :
    ∃ m2 : Mem, handle_eptviolation k vmcs ginfo m = .ok (true, m2) ∧
      m2.pp_ref p = m.pp_ref p + 1 ∧
      (∀ q, q ≠ p → m2.pp_ref q = m.pp_ref q) ∧
      m2.ept (ROUNDDOWN (fault_gpa vmcs) k.PGSIZE) = some (k.page2kva p, k.__EPTE_FULL) ∧
      (∀ a, a ≠ ROUNDDOWN (fault_gpa vmcs) k.PGSIZE → m2.ept a = m.ept a) ∧
      (∀ access, k.__EPTE_FULL &&& access = access →
        ept_faults k m2 (fault_gpa vmcs) access = false) := by
  have hm1 : m1.pp_ref = m.pp_ref ∧ m1.ept = m.ept := by
    unfold page_alloc at halloc
    cases hl : m.page_free_list with
    | nil => simp [hl] at halloc
    | cons x xs =>
      simp [hl] at halloc
      obtain ⟨_, rfl⟩ := halloc
      exact ⟨rfl, rfl⟩
  have hok := ept_map_hva2gpa_ok k _ _ _ _ _ hmap
  rw [ROUNDDOWN_idem] at hok
  refine ⟨(ept_map_hva2gpa k (pp_ref_incr m1 p) (k.page2kva p)
      (ROUNDDOWN (fault_gpa vmcs) k.PGSIZE) k.__EPTE_FULL false).2, ?_, ?_, ?_, ?_, ?_, ?_⟩
  · unfold handle_eptviolation
    simp only [ge_iff_le, hgpa, if_true, halloc, hok]
    simp
  · rw [hok]; simp [pp_ref_incr, hm1.1]
  · intro q hq; rw [hok]; simp [pp_ref_incr, hm1.1, hq]
  · rw [hok]; simp
  · intro a ha; rw [hok]; simp [ha, pp_ref_incr, hm1.2]
  · intro access hacc
    rw [hok]; simp [ept_faults, hacc]

/-- The allocate branch at a fault at 0x2345 in a guest of 64 MiB, frame 5 being
the head of the free list. -/
theorem handle_eptviolation_backs_frame_witness :
    ∃ m2 : Mem,
      handle_eptviolation spec_consts (vmcs_fault 0x2345) (guest_of_size 0x4000000) mem0
        = .ok (true, m2) ∧
      m2.pp_ref 5 = mem0.pp_ref 5 + 1 ∧
      (∀ q, q ≠ 5 → m2.pp_ref q = mem0.pp_ref q) ∧
      m2.ept (ROUNDDOWN (fault_gpa (vmcs_fault 0x2345)) spec_consts.PGSIZE)
        = some (spec_consts.page2kva 5, spec_consts.__EPTE_FULL) ∧
      (∀ a, a ≠ ROUNDDOWN (fault_gpa (vmcs_fault 0x2345)) spec_consts.PGSIZE →
        m2.ept a = mem0.ept a) ∧
      (∀ access, spec_consts.__EPTE_FULL &&& access = access →
        ept_faults spec_consts m2 (fault_gpa (vmcs_fault 0x2345)) access = false) :=
  handle_eptviolation_backs_frame spec_consts (vmcs_fault 0x2345) (guest_of_size 0x4000000)
    mem0 { mem0 with page_free_list := [6] } 5 (by decide) rfl (by decide)

/-- C2, as stated, fails: a guest configured with 4 KiB faults at 0x2000,
which is at or above its size, and the handler backs the page with a frame
and reports handled. -/
theorem handle_eptviolation_above_small_size :
    (guest_of_size 0x1000).phys_sz ≤ fault_gpa (vmcs_fault 0x2000) ∧
    returned (handle_eptviolation spec_consts (vmcs_fault 0x2000) (guest_of_size 0x1000) mem0)
      = some true ∧
    ept_after (handle_eptviolation spec_consts (vmcs_fault 0x2000) (guest_of_size 0x1000) mem0)
      0x2000 = some (0x8004005000, 7) := by
  refine ⟨by decide, ?_, ?_⟩ <;> rfl

/-- C2, amended: the handler reports unhandled and leaves the memory state,
the translations included, as it was for every faulting address in
[640 KiB, 1 MiB) outside the VGA window, and for every faulting address that
is at or above both the configured size and 1 MiB; the VGA window ends at or
below 1 MiB. -/
theorem handle_eptviolation_unhandled (k : Consts) (vmcs : Vmcs) (ginfo : VmxGuestInfo)
    (m : Mem) (hk : k.CGA_BUF + k.PGSIZE ≤ 0x100000)
    (h : (0xA0000 ≤ fault_gpa vmcs ∧ fault_gpa vmcs < 0x100000 ∧
          ¬ (k.CGA_BUF ≤ fault_gpa vmcs ∧ fault_gpa vmcs < k.CGA_BUF + k.PGSIZE)) ∨
         (ginfo.phys_sz ≤ fault_gpa vmcs ∧ 0x100000 ≤ fault_gpa vmcs)) :
    handle_eptviolation k vmcs ginfo m = .ok (false, m) := by
  unfold handle_eptviolation
  have h1 : ¬ (fault_gpa vmcs < 0xA0000 ∨
      (fault_gpa vmcs ≥ 0x100000 ∧ fault_gpa vmcs < ginfo.phys_sz)) := by omega
  have h2 : ¬ (fault_gpa vmcs ≥ k.CGA_BUF ∧ fault_gpa vmcs < k.CGA_BUF + k.PGSIZE) := by omega
  simp only [h1, h2, if_false]

/-- Faults at 0xC0000 in the hole and at 64 MiB, the size of the guest, are
unhandled. -/
theorem handle_eptviolation_unhandled_witness :
    handle_eptviolation spec_consts (vmcs_fault 0xC0000) (guest_of_size 0x4000000) mem0
        = .ok (false, mem0) ∧
      handle_eptviolation spec_consts (vmcs_fault 0x4000000) (guest_of_size 0x4000000) mem0
        = .ok (false, mem0) :=
  ⟨handle_eptviolation_unhandled spec_consts (vmcs_fault 0xC0000) (guest_of_size 0x4000000)
      mem0 (by decide) (by decide),
   handle_eptviolation_unhandled spec_consts (vmcs_fault 0x4000000) (guest_of_size 0x4000000)
      mem0 (by decide) (by decide)⟩

/-- C3, as stated, fails: at a fault at 0xB8F00, inside the VGA window, when
the Translation Bridge cannot obtain a table frame the mapping primitive
returns a negative code and the `assert` of the handler stops the kernel;
the handler does not return handled. -/
theorem handle_eptviolation_vga_window_map_fails :
    spec_consts.CGA_BUF ≤ fault_gpa (vmcs_fault 0xB8F00) ∧
    fault_gpa (vmcs_fault 0xB8F00) < spec_consts.CGA_BUF + spec_consts.PGSIZE ∧
    (ept_map_hva2gpa spec_consts kernel_no_tables.mem
      (u64 (spec_consts.KERNBASE + spec_consts.CGA_BUF)) spec_consts.CGA_BUF
      spec_consts.__EPTE_FULL false).1 < 0 ∧
    faulted (handle_eptviolation spec_consts (vmcs_fault 0xB8F00) (guest_of_size 0x4000000)
      kernel_no_tables.mem) = some Fault.assert_failed ∧
    returned (handle_eptviolation spec_consts (vmcs_fault 0xB8F00) (guest_of_size 0x4000000)
      kernel_no_tables.mem) = none := by
  refine ⟨by decide, by decide, by decide, rfl, rfl⟩

/-- C3, amended: for a faulting address inside the VGA window, when the mapping
primitive succeeds, the handler returns handled, leaves the free list and
every reference count as they were, maps the page at `CGA_BUF` to the kernel
view `KERNBASE + CGA_BUF` with full rights and changes no other translation;
an access to the faulting address with any of the full rights no longer
faults. -/
theorem handle_eptviolation_vga_window (k : Consts) (vmcs : Vmcs) (ginfo : VmxGuestInfo)
    (m : Mem) (hk : vga_window_ok k)
    (hwin : k.CGA_BUF ≤ fault_gpa vmcs ∧ fault_gpa vmcs < k.CGA_BUF + k.PGSIZE)
    (hmap : 0 ≤ (ept_map_hva2gpa k m (u64 (k.KERNBASE + k.CGA_BUF)) k.CGA_BUF
      k.__EPTE_FULL false).1) :
    ∃ m2 : Mem, handle_eptviolation k vmcs ginfo m = .ok (true, m2) ∧
      m2.pp_ref = m.pp_ref ∧
      m2.page_free_list = m.page_free_list ∧
      m2.ept k.CGA_BUF = some (k.KERNBASE + k.CGA_BUF, k.__EPTE_FULL) ∧
      (∀ a, a ≠ k.CGA_BUF → m2.ept a = m.ept a) ∧
      (∀ access, k.__EPTE_FULL &&& access = access →
        ept_faults k m2 (fault_gpa vmcs) access = false) := by
  obtain ⟨hk1, hk2, hk3, hk4⟩ := hk
  have hok := ept_map_hva2gpa_ok k _ _ _ _ _ hmap
  have hrd : ROUNDDOWN k.CGA_BUF k.PGSIZE = k.CGA_BUF := by
    unfold ROUNDDOWN; rw [hk3]; rfl
  have hrg : ROUNDDOWN (fault_gpa vmcs) k.PGSIZE = k.CGA_BUF :=
    ROUNDDOWN_window _ _ _ hk3 hwin.1 hwin.2
  have hu : u64 (k.KERNBASE + k.CGA_BUF) = k.KERNBASE + k.CGA_BUF := by
    unfold u64; exact Nat.mod_eq_of_lt hk4
  rw [hrd, hu] at hok
  have h1 : ¬ (fault_gpa vmcs < 0xA0000 ∨
      (fault_gpa vmcs ≥ 0x100000 ∧ fault_gpa vmcs < ginfo.phys_sz)) := by omega
  refine ⟨(ept_map_hva2gpa k m (k.KERNBASE + k.CGA_BUF) k.CGA_BUF k.__EPTE_FULL false).2,
    ?_, ?_, ?_, ?_, ?_, ?_⟩
  · unfold handle_eptviolation
    have h2 : fault_gpa vmcs ≥ k.CGA_BUF ∧ fault_gpa vmcs < k.CGA_BUF + k.PGSIZE := hwin
    simp only [h1, h2, if_false, if_true, hu, hok]
    simp
  · rw [hok]
  · rw [hok]
  · rw [hok]; simp
  · intro a ha; rw [hok]; simp [ha]
  · intro access hacc
    rw [hok]; simp [ept_faults, hrg, hacc]

/-- The VGA branch at a fault at 0xB8F00. -/
theorem handle_eptviolation_vga_window_witness :
    ∃ m2 : Mem,
      handle_eptviolation spec_consts (vmcs_fault 0xB8F00) (guest_of_size 0x4000000) mem0
        = .ok (true, m2) ∧
      m2.pp_ref = mem0.pp_ref ∧
      m2.page_free_list = mem0.page_free_list ∧
      m2.ept spec_consts.CGA_BUF
        = some (spec_consts.KERNBASE + spec_consts.CGA_BUF, spec_consts.__EPTE_FULL) ∧
      (∀ a, a ≠ spec_consts.CGA_BUF → m2.ept a = mem0.ept a) ∧
      (∀ access, spec_consts.__EPTE_FULL &&& access = access →
        ept_faults spec_consts m2 (fault_gpa (vmcs_fault 0xB8F00)) access = false) :=
  handle_eptviolation_vga_window spec_consts (vmcs_fault 0xB8F00) (guest_of_size 0x4000000)
    mem0 (by decide) (by decide) (by decide)

/-! ## CPUID -/

theorem testBit_clear_vmx (e i : Nat) (he : e < 2 ^ 32) :
    (e &&& 0xFFFFFFDF).testBit i = (decide (i ≠ 5) && e.testBit i) := by
  rw [Nat.testBit_and]
  by_cases hi : i < 32
  · interval_cases i <;> simp [Nat.testBit, Nat.shiftRight_eq_div_pow]
  · have h1 : e.testBit i = false := by
      apply Nat.testBit_eq_false_of_lt
      exact lt_of_lt_of_le he (Nat.pow_le_pow_right (by norm_num) (by omega))
    simp [h1]

/-- C4: when the low 32 bits of `rax` request leaf 1, for every hardware
result of four 32-bit registers, `handle_cpuid` returns handled, leaves the
hardware eax, ebx, edx in `rax`, `rbx`, `rdx`, leaves in `rcx` the hardware
ecx with bit 5 clear and every other bit as the hardware gave it, and
advances `rip` by the instruction length modulo 2^64. -/
theorem handle_cpuid_feature_leaf (cpuid : Nat → CpuidRegs) (tf : Trapframe) (vmcs : Vmcs)
    (hleaf : u32 tf.tf_regs.reg_rax = 1)
    (hw : (cpuid 1).eax < 2 ^ 32 ∧ (cpuid 1).ebx < 2 ^ 32 ∧ (cpuid 1).ecx < 2 ^ 32 ∧
      (cpuid 1).edx < 2 ^ 32) :
    (handle_cpuid cpuid tf vmcs).1 = true ∧
    (handle_cpuid cpuid tf vmcs).2.tf_regs.reg_rax = (cpuid 1).eax ∧
    (handle_cpuid cpuid tf vmcs).2.tf_regs.reg_rbx = (cpuid 1).ebx ∧
    (handle_cpuid cpuid tf vmcs).2.tf_regs.reg_rdx = (cpuid 1).edx ∧
    (handle_cpuid cpuid tf vmcs).2.tf_regs.reg_rcx = (cpuid 1).ecx &&& 0xFFFFFFDF ∧
    (handle_cpuid cpuid tf vmcs).2.tf_regs.reg_rcx.testBit 5 = false ∧
    (∀ i, i ≠ 5 →
      (handle_cpuid cpuid tf vmcs).2.tf_regs.reg_rcx.testBit i = (cpuid 1).ecx.testBit i) ∧
    (handle_cpuid cpuid tf vmcs).2.tf_rip =
      (tf.tf_rip + vmcs.VMCS_32BIT_VMEXIT_INSTRUCTION_LENGTH % 2 ^ 32) % 2 ^ 64 := by
  obtain ⟨ha, hb, hc, hd⟩ := hw
  have hl : tf.tf_regs.reg_rax % 4294967296 = 1 := hleaf
  have ha1 : (cpuid 1).eax % 4294967296 = (cpuid 1).eax := Nat.mod_eq_of_lt ha
  have hb1 : (cpuid 1).ebx % 4294967296 = (cpuid 1).ebx := Nat.mod_eq_of_lt hb
  have hc1 : (cpuid 1).ecx % 4294967296 = (cpuid 1).ecx := Nat.mod_eq_of_lt hc
  have hd1 : (cpuid 1).edx % 4294967296 = (cpuid 1).edx := Nat.mod_eq_of_lt hd
  have hrcx : (handle_cpuid cpuid tf vmcs).2.tf_regs.reg_rcx = (cpuid 1).ecx &&& 0xFFFFFFDF := by
    simp only [handle_cpuid, advance_rip, u32]
    norm_num [hl, hc1]
  refine ⟨rfl, ?_, ?_, ?_, hrcx, ?_, ?_, ?_⟩
  · simp only [handle_cpuid, advance_rip, u32]
    norm_num [hl, ha1]
  · simp only [handle_cpuid, advance_rip, u32]
    norm_num [hl, hb1]
  · simp only [handle_cpuid, advance_rip, u32]
    norm_num [hl, hd1]
  · rw [hrcx, testBit_clear_vmx _ _ hc]; simp
  · intro i hi
    rw [hrcx, testBit_clear_vmx _ _ hc]; simp [hi]
  · simp [handle_cpuid, advance_rip, vmcs_read32, u32, u64]

/-- Leaf 1 on hardware that reports bit 5 of ecx set. -/
theorem handle_cpuid_feature_leaf_witness :
    (handle_cpuid (fun _ => ⟨0x306A9, 0x100800, 0x7FBAE3FF, 0xBFEBFBFF⟩) (tf_of 1 0 0x1000)
      (vmcs_fault 0)).2.tf_regs.reg_rcx.testBit 5 = false :=
  (handle_cpuid_feature_leaf (fun _ => ⟨0x306A9, 0x100800, 0x7FBAE3FF, 0xBFEBFBFF⟩)
    (tf_of 1 0 0x1000) (vmcs_fault 0) (by decide) (by decide)).2.2.2.2.2.1

/-- C5 fails on the code: for the extended feature leaf 0x80000001, where the
hardware reports ecx = 0x21, `handle_cpuid` leaves 0x01 in `rcx`; bit 5 is
cleared for every leaf other than 0, not only for leaf 1. -/
theorem handle_cpuid_other_leaf_clears_bit5 :
    u32 (tf_of 0x80000001 0 0x1000).tf_regs.reg_rax ≠ 1 ∧
    (handle_cpuid (fun _ => ⟨0, 0, 0x21, 0⟩) (tf_of 0x80000001 0 0x1000)
      (vmcs_fault 0)).2.tf_regs.reg_rcx = 0x01 := by
  constructor
  · decide
  · rfl

/-! ## The real-time-clock ports -/

theorem byte_recombine (x : Nat) : (x &&& 0xFF) + 256 * ((x >>> 8) &&& 0xFF) = x % 65536 := by
  have h1 : x &&& 0xFF = x % 2 ^ 8 := Nat.and_pow_two_sub_one_eq_mod x 8
  have h2 : (x >>> 8) &&& 0xFF = (x >>> 8) % 2 ^ 8 := Nat.and_pow_two_sub_one_eq_mod _ 8
  rw [h1, h2, Nat.shiftRight_eq_div_pow]
  omega

theorem low_byte_eq (x : Nat) : x &&& 0xFF = x % 256 :=
  Nat.and_pow_two_sub_one_eq_mod x 8

theorem high_byte_eq (x : Nat) : (x >>> 8) &&& 0xFF = x / 256 % 256 := by
  have h2 : (x >>> 8) &&& 0xFF = (x >>> 8) % 2 ^ 8 := Nat.and_pow_two_sub_one_eq_mod _ 8
  rw [h2, Nat.shiftRight_eq_div_pow]; norm_num

theorem wrap64_cast (i : Int) : ((wrap64 i : Nat) : Int) = i % 2 ^ 64 := by
  unfold wrap64
  exact Int.toNat_of_nonneg (Int.emod_nonneg _ (by norm_num))

theorem ext_kb_mod (ginfo : VmxGuestInfo) :
    ((ext_kb ginfo % 65536 : Nat) : Int) = (((ginfo.phys_sz / 1024 : Nat) : Int) - 1024) % 65536 := by
  unfold ext_kb
  rw [Int.natCast_mod, wrap64_cast]
  exact Int.emod_emod_of_dvd _ (by norm_num)

theorem handle_ioinstr_data_read_eq (k : Consts) (tf : Trapframe) (ginfo : VmxGuestInfo)
    (vmcs : Vmcs) (latch : Int)
    (hport : port_number vmcs = k.IO_RTC + 1) (hin : is_in vmcs = true) :
    handle_ioinstr k tf ginfo vmcs latch =
      if latch = k.NVRAM_BASELO then
        (true, advance_rip { tf with tf_regs := { tf.tf_regs with reg_rax := 640 &&& 0xFF } } vmcs,
          latch)
      else if latch = k.NVRAM_BASEHI then
        (true, advance_rip
          { tf with tf_regs := { tf.tf_regs with reg_rax := (640 >>> 8) &&& 0xFF } } vmcs, latch)
      else if latch = k.NVRAM_EXTLO then
        (true, advance_rip
          { tf with tf_regs := { tf.tf_regs with reg_rax := ext_kb ginfo &&& 0xFF } } vmcs, latch)
      else if latch = k.NVRAM_EXTHI then
        (true, advance_rip
          { tf with tf_regs := { tf.tf_regs with reg_rax := (ext_kb ginfo >>> 8) &&& 0xFF } } vmcs,
          latch)
      else (false, tf, latch) := by
  have hne : ¬ (k.IO_RTC + 1 = k.IO_RTC) := by omega
  unfold handle_ioinstr
  simp only [hport, hin, hne, if_false, if_true]
  by_cases c1 : latch = k.NVRAM_BASELO
  · rw [if_pos c1, if_pos c1]; rfl
  · rw [if_neg c1, if_neg c1]
    by_cases c2 : latch = k.NVRAM_BASEHI
    · rw [if_pos c2, if_pos c2]; rfl
    · rw [if_neg c2, if_neg c2]
      by_cases c3 : latch = k.NVRAM_EXTLO
      · rw [if_pos c3, if_pos c3]; rfl
      · rw [if_neg c3, if_neg c3]
        by_cases c4 : latch = k.NVRAM_EXTHI
        · rw [if_pos c4, if_pos c4]; rfl
        · rw [if_neg c4, if_neg c4]; rfl

/-- C6: at a read exit on the data port `IO_RTC + 1`, the four indices being
pairwise distinct, `handle_ioinstr` returns handled exactly when the latched
index is one of them; it then leaves in `rax` the low or high byte of 640,
or of `phys_sz / 1024 - 1024` taken as a 64-bit pattern, advances `rip` by
the instruction length modulo 2^64 and keeps the latch; the two base bytes
recombine to 640 and the two extended bytes to
`(phys_sz / 1024 - 1024) mod 65536`. -/
theorem handle_ioinstr_data_port_read (k : Consts) (tf : Trapframe) (ginfo : VmxGuestInfo)
    (vmcs : Vmcs) (latch : Int)
    (hk : [k.NVRAM_BASELO, k.NVRAM_BASEHI, k.NVRAM_EXTLO, k.NVRAM_EXTHI].Nodup)
    (hport : port_number vmcs = k.IO_RTC + 1) (hin : is_in vmcs = true) :
    ((handle_ioinstr k tf ginfo vmcs latch).1 = true ↔
      latch = k.NVRAM_BASELO ∨ latch = k.NVRAM_BASEHI ∨ latch = k.NVRAM_EXTLO ∨
        latch = k.NVRAM_EXTHI) ∧
    ((handle_ioinstr k tf ginfo vmcs latch).1 = true →
      (handle_ioinstr k tf ginfo vmcs latch).2.1.tf_rip =
        (tf.tf_rip + vmcs.VMCS_32BIT_VMEXIT_INSTRUCTION_LENGTH % 2 ^ 32) % 2 ^ 64) ∧
    (handle_ioinstr k tf ginfo vmcs latch).2.2 = latch ∧
    (latch = k.NVRAM_BASELO →
      (handle_ioinstr k tf ginfo vmcs latch).2.1.tf_regs.reg_rax = 640 &&& 0xFF) ∧
    (latch = k.NVRAM_BASEHI →
      (handle_ioinstr k tf ginfo vmcs latch).2.1.tf_regs.reg_rax = (640 >>> 8) &&& 0xFF) ∧
    (latch = k.NVRAM_EXTLO →
      (handle_ioinstr k tf ginfo vmcs latch).2.1.tf_regs.reg_rax = ext_kb ginfo &&& 0xFF) ∧
    (latch = k.NVRAM_EXTHI →
      (handle_ioinstr k tf ginfo vmcs latch).2.1.tf_regs.reg_rax
        = (ext_kb ginfo >>> 8) &&& 0xFF) ∧
    (640 &&& 0xFF) + 256 * ((640 >>> 8) &&& 0xFF) = 640 ∧
    (((ext_kb ginfo &&& 0xFF) + 256 * ((ext_kb ginfo >>> 8) &&& 0xFF) : Nat) : Int)
      = (((ginfo.phys_sz / 1024 : Nat) : Int) - 1024) % 65536 := by
  simp only [List.nodup_cons, List.mem_cons, List.mem_singleton, not_or, List.not_mem_nil,
    not_false_eq_true, List.nodup_nil, and_true] at hk
  obtain ⟨⟨h12, h13, h14⟩, ⟨h23, h24⟩, h34⟩ := hk
  have h21 : ¬ (k.NVRAM_BASEHI = k.NVRAM_BASELO) := fun h => h12 h.symm
  have h31 : ¬ (k.NVRAM_EXTLO = k.NVRAM_BASELO) := fun h => h13 h.symm
  have h32 : ¬ (k.NVRAM_EXTLO = k.NVRAM_BASEHI) := fun h => h23 h.symm
  have h41 : ¬ (k.NVRAM_EXTHI = k.NVRAM_BASELO) := fun h => h14 h.symm
  have h42 : ¬ (k.NVRAM_EXTHI = k.NVRAM_BASEHI) := fun h => h24 h.symm
  have h43 : ¬ (k.NVRAM_EXTHI = k.NVRAM_EXTLO) := fun h => h34 h.symm
  rw [handle_ioinstr_data_read_eq k tf ginfo vmcs latch hport hin]
  refine ⟨?_, ?_, ?_, ?_, ?_, ?_, ?_, by decide, ?_⟩
  · split_ifs with c1 c2 c3 c4 <;> simp [*]
  · split_ifs with c1 c2 c3 c4 <;> simp [advance_rip, vmcs_read32, u32, u64]
  · split_ifs <;> rfl
  · intro c1; subst c1; simp [advance_rip]
  · intro c2; subst c2; simp [h21, advance_rip]
  · intro c3; subst c3; simp [h31, h32, advance_rip]
  · intro c4; subst c4; simp [h41, h42, h43, advance_rip]
  · rw [byte_recombine]; exact ext_kb_mod ginfo

/-- A read of the data port with index 0x30 latched. -/
theorem handle_ioinstr_data_port_read_witness :
    (handle_ioinstr spec_consts (tf_of 0 0 0x1000) (guest_of_size 0x4000000)
      vmcs_rtc_data_read 0x30).2.1.tf_regs.reg_rax = ext_kb (guest_of_size 0x4000000) &&& 0xFF :=
  (handle_ioinstr_data_port_read spec_consts (tf_of 0 0 0x1000) (guest_of_size 0x4000000)
    vmcs_rtc_data_read 0x30 (by decide) (by decide) (by decide)).2.2.2.2.2.1 rfl

theorem handle_ioinstr_index_write_eq (k : Consts) (tf : Trapframe) (ginfo : VmxGuestInfo)
    (vmcs : Vmcs) (latch : Int)
    (hport : port_number vmcs = k.IO_RTC) (hout : is_in vmcs = false) :
    handle_ioinstr k tf ginfo vmcs latch = (true, advance_rip tf vmcs, int32 tf.tf_regs.reg_rax) := by
  unfold handle_ioinstr
  simp only [hport, hout, if_true]
  rfl

theorem ext_kb_low_byte (ginfo : VmxGuestInfo) :
    ((ext_kb ginfo &&& 0xFF : Nat) : Int) = (((ginfo.phys_sz / 1024 : Nat) : Int) - 1024) % 256 := by
  rw [low_byte_eq]
  unfold ext_kb
  rw [Int.natCast_mod, wrap64_cast]
  exact Int.emod_emod_of_dvd _ (by norm_num)

theorem ext_kb_high_byte (ginfo : VmxGuestInfo) :
    (((ext_kb ginfo >>> 8) &&& 0xFF : Nat) : Int)
      = (((ginfo.phys_sz / 1024 : Nat) : Int) - 1024) / 256 % 256 := by
  rw [high_byte_eq]
  unfold ext_kb
  rw [Int.natCast_mod, Int.natCast_div, wrap64_cast]
  omega

/-- C7, as stated, fails: with `rax = 0x210` at the write to the index port
the index byte is 0x10, the high byte of base memory, but the latch takes
0x210 and the following read of the data port is unhandled, with `rax` left
as it was. -/
theorem handle_ioinstr_index_byte_with_high_bits :
    (tf_of 0x210 0 0x1000).tf_regs.reg_rax &&& 0xFF = 0x10 ∧
    spec_consts.NVRAM_BASEHI = 0x10 ∧
    (handle_ioinstr spec_consts (tf_of 0x210 0 0x1000) (guest_of_size 0x4000000)
      vmcs_rtc_index_write 7).1 = true ∧
    handle_ioinstr spec_consts (tf_of 0 0 0x1001) (guest_of_size 0x4000000) vmcs_rtc_data_read
      (handle_ioinstr spec_consts (tf_of 0x210 0 0x1000) (guest_of_size 0x4000000)
        vmcs_rtc_index_write 7).2.2 = (false, tf_of 0 0 0x1001, 0x210) := by
  refine ⟨by decide, by decide, by decide, by decide⟩

/-- C7, amended: with the index bytes the spec names (0x0F, 0x10 for base
memory, 0x30, 0x31 for extended memory), from any latch state a write exit
on the index port whose `rax` has one of these values in its low 32 bits,
followed by a read exit on the data port, has both exits handled, and the
read leaves in `rax` the low or high byte of 640, or the low or high byte of
`phys_sz / 1024 - 1024`. -/
theorem handle_ioinstr_index_then_data (k : Consts) (ginfo : VmxGuestInfo)
    (tf_w tf_r : Trapframe) (vw vr : Vmcs) (latch0 : Int)
    (hk : k.NVRAM_BASELO = 0x0F ∧ k.NVRAM_BASEHI = 0x10 ∧ k.NVRAM_EXTLO = 0x30 ∧
      k.NVRAM_EXTHI = 0x31)
    (hw : port_number vw = k.IO_RTC ∧ is_in vw = false)
    (hr : port_number vr = k.IO_RTC + 1 ∧ is_in vr = true)
    (hidx : tf_w.tf_regs.reg_rax % 2 ^ 32 = 0x0F ∨ tf_w.tf_regs.reg_rax % 2 ^ 32 = 0x10 ∨
      tf_w.tf_regs.reg_rax % 2 ^ 32 = 0x30 ∨ tf_w.tf_regs.reg_rax % 2 ^ 32 = 0x31) :
    (handle_ioinstr k tf_w ginfo vw latch0).1 = true ∧
    (handle_ioinstr k tf_r ginfo vr (handle_ioinstr k tf_w ginfo vw latch0).2.2).1 = true ∧
    (tf_w.tf_regs.reg_rax % 2 ^ 32 = 0x0F →
      (handle_ioinstr k tf_r ginfo vr
        (handle_ioinstr k tf_w ginfo vw latch0).2.2).2.1.tf_regs.reg_rax = 640 % 256) ∧
    (tf_w.tf_regs.reg_rax % 2 ^ 32 = 0x10 →
      (handle_ioinstr k tf_r ginfo vr
        (handle_ioinstr k tf_w ginfo vw latch0).2.2).2.1.tf_regs.reg_rax = 640 / 256 % 256) ∧
    (tf_w.tf_regs.reg_rax % 2 ^ 32 = 0x30 →
      (((handle_ioinstr k tf_r ginfo vr
        (handle_ioinstr k tf_w ginfo vw latch0).2.2).2.1.tf_regs.reg_rax : Nat) : Int)
        = (((ginfo.phys_sz / 1024 : Nat) : Int) - 1024) % 256) ∧
    (tf_w.tf_regs.reg_rax % 2 ^ 32 = 0x31 →
      (((handle_ioinstr k tf_r ginfo vr
        (handle_ioinstr k tf_w ginfo vw latch0).2.2).2.1.tf_regs.reg_rax : Nat) : Int)
        = (((ginfo.phys_sz / 1024 : Nat) : Int) - 1024) / 256 % 256) := by
  obtain ⟨k1, k2, k3, k4⟩ := hk
  rw [handle_ioinstr_index_write_eq k tf_w ginfo vw latch0 hw.1 hw.2]
  simp only []
  rw [handle_ioinstr_data_read_eq k tf_r ginfo vr _ hr.1 hr.2, k1, k2, k3, k4]
  have hl := ext_kb_low_byte ginfo
  have hh := ext_kb_high_byte ginfo
  rcases hidx with h | h | h | h
  · have e : int32 tf_w.tf_regs.reg_rax = 0x0F := by unfold int32; rw [h]; decide
    rw [e, h]; simp [advance_rip]; decide
  · have e : int32 tf_w.tf_regs.reg_rax = 0x10 := by unfold int32; rw [h]; decide
    rw [e, h]; simp [advance_rip]; decide
  · have e : int32 tf_w.tf_regs.reg_rax = 0x30 := by unfold int32; rw [h]; decide
    rw [e, h]; simp [advance_rip]; simpa using hl
  · have e : int32 tf_w.tf_regs.reg_rax = 0x31 := by unfold int32; rw [h]; decide
    rw [e, h]; simp [advance_rip]; simpa using hh

/-- Index 0x0F written to port 0x70, then port 0x71 read. -/
theorem handle_ioinstr_index_then_data_witness :
    (handle_ioinstr spec_consts (tf_of 0 0 0x1002) (guest_of_size 0x4000000) vmcs_rtc_data_read
      (handle_ioinstr spec_consts (tf_of 0x0F 0 0x1000) (guest_of_size 0x4000000)
        vmcs_rtc_index_write 0).2.2).2.1.tf_regs.reg_rax = 640 % 256 :=
  (handle_ioinstr_index_then_data spec_consts (guest_of_size 0x4000000) (tf_of 0x0F 0 0x1000)
    (tf_of 0 0 0x1002) vmcs_rtc_index_write vmcs_rtc_data_read 0 (by decide) (by decide)
    (by decide) (by decide)).2.2.1 rfl

/-! ## The memory-map hypercall -/

theorem handle_vmcall_mbmap_eq (k : Consts) (tf : Trapframe) (gInfo : VmxGuestInfo)
    (vmcs : Vmcs) (s : Kernel) (hva : Nat) (m2 : Mem)
    (hcall : tf.tf_regs.reg_rax = k.VMX_VMCALL_MBMAP)
    (hback : mbmap_backing k s.mem hva m2) :
    handle_vmcall k tf gInfo vmcs s =
      .ok (true,
        advance_rip { tf with tf_regs := { tf.tf_regs with reg_rbx := 0x6000 } } vmcs,
        { s with mem := m2, effects := s.effects ++ copy_mbmap k (build_mbmap k gInfo) hva }) := by
  rcases hback with ⟨h0, rfl, rfl⟩ | ⟨h0, p, m1, ha, rfl, hr, rfl⟩
  · unfold handle_vmcall handle_vmcall_switch
    simp only [hcall, if_true, h0, if_false]
  · have hok := ept_map_hva2gpa_ok k _ _ _ _ _ hr
    have hnot : ¬ ((0 : Int) < 0) := by decide
    unfold handle_vmcall handle_vmcall_switch
    simp only [hcall, if_true, h0, ha, hok, hnot, if_false]

theorem build_mbmap_eq (k : Consts) (gInfo : VmxGuestInfo) (hfit : mb_fits k)
    (hsz : 0x100000 ≤ gInfo.phys_sz ∧ gInfo.phys_sz < 2 ^ 64) :
    build_mbmap k gInfo =
      { mbinfo := { flags := k.MB_FLAG_MMAP, mmap_length := 3 * k.sizeof_memory_map_t
                    mmap_addr := 0x6000 + k.sizeof_multiboot_info_t }
        lomap := { size := k.sizeof_memory_map_t, base_addr_low := 0, base_addr_high := 0
                   length_low := 640 * 1024, length_high := 0, type := k.MB_TYPE_USABLE }
        iohole := { size := k.sizeof_memory_map_t, base_addr_low := 640 * 1024
                    base_addr_high := 0, length_low := 384 * 1024, length_high := 0
                    type := k.MB_TYPE_RESERVED }
        himap := { size := k.sizeof_memory_map_t, base_addr_low := 1024 * 1024
                   base_addr_high := 0, length_low := (gInfo.phys_sz - 0x100000) % 2 ^ 32
                   length_high := (gInfo.phys_sz - 0x100000) / 2 ^ 32
                   type := k.MB_TYPE_USABLE } } := by
  obtain ⟨f1, f2, f3, f4, f5⟩ := hfit
  have hw : wrap64 ((gInfo.phys_sz : Int) - 1024 * 1024) = gInfo.phys_sz - 0x100000 := by
    unfold wrap64
    omega
  have hs : k.sizeof_memory_map_t % 2 ^ 32 = k.sizeof_memory_map_t :=
    Nat.mod_eq_of_lt (by omega)
  have hh : (gInfo.phys_sz - 0x100000) >>> 32 % 2 ^ 32 = (gInfo.phys_sz - 0x100000) / 2 ^ 32 := by
    rw [Nat.shiftRight_eq_div_pow]
    apply Nat.mod_eq_of_lt
    omega
  unfold build_mbmap
  simp only [hw, u32, Nat.zero_or, Nat.mod_eq_of_lt f1, Nat.mod_eq_of_lt f2, Nat.mod_eq_of_lt f3,
    Nat.mod_eq_of_lt f4, Nat.mod_eq_of_lt f5, hs, hh]
  norm_num

theorem mbmap_backing_hva (k : Consts) (m : Mem) (hva : Nat) (m2 : Mem)
    (hpg : 0x6000 % k.PGSIZE = 0) (hhva : hva < 2 ^ 64) (hback : mbmap_backing k m hva m2) :
    ept_gpa2hva k m2 0x6000 = hva := by
  rcases hback with ⟨_, rfl, rfl⟩ | ⟨_, p, m1, _, rfl, hr, rfl⟩
  · rfl
  · rw [ept_map_hva2gpa_ok k _ _ _ _ _ hr]
    unfold ept_gpa2hva
    simp only [if_true, hpg, Nat.add_zero, u64]
    exact Nat.mod_eq_of_lt hhva

/-- C8: for a 64-bit configured size of at least 1 MiB, when a backing frame
for guest physical address 0x6000 is resident or is allocated and mapped,
host address `hva` being the one that backs 0x6000 afterwards, the memory-map
call returns handled with `rbx = 0x6000` and `rip` advanced by the
instruction length modulo 2^64, and its effects are four copies in a row
starting at `hva`: the header (memory-map flag, length of three entries,
pointer 0x6000 + size of the header), then the entries (0, 640 KiB, usable),
(640 KiB, 384 KiB, reserved), (1 MiB, phys_sz - 1 MiB in two 32-bit halves,
usable), each destination being the previous one plus the size copied. -/
theorem handle_vmcall_mbmap_layout (k : Consts) (tf : Trapframe) (gInfo : VmxGuestInfo)
    (vmcs : Vmcs) (s : Kernel) (hva : Nat) (m2 : Mem)
    (hcall : tf.tf_regs.reg_rax = k.VMX_VMCALL_MBMAP)
    (hfit : mb_fits k) (hpg : 0x6000 % k.PGSIZE = 0) (hhva : hva < 2 ^ 64)
    (hsz : 0x100000 ≤ gInfo.phys_sz ∧ gInfo.phys_sz < 2 ^ 64)
    (hback : mbmap_backing k s.mem hva m2) :
    handle_vmcall k tf gInfo vmcs s =
      .ok (true,
        { tf_regs := { tf.tf_regs with reg_rbx := 0x6000 }
          tf_rip := (tf.tf_rip + vmcs.VMCS_32BIT_VMEXIT_INSTRUCTION_LENGTH % 2 ^ 32) % 2 ^ 64 },
        { s with
            mem := m2
            effects := s.effects ++
              [ Effect.memcpy hva
                  (Blob.mbinfo
                    { flags := k.MB_FLAG_MMAP, mmap_length := 3 * k.sizeof_memory_map_t
                      mmap_addr := 0x6000 + k.sizeof_multiboot_info_t })
                  k.sizeof_multiboot_info_t,
                Effect.memcpy (u64 (hva + k.sizeof_multiboot_info_t))
                  (Blob.mmap
                    { size := k.sizeof_memory_map_t, base_addr_low := 0, base_addr_high := 0
                      length_low := 640 * 1024, length_high := 0, type := k.MB_TYPE_USABLE })
                  k.sizeof_memory_map_t,
                Effect.memcpy (u64 (u64 (hva + k.sizeof_multiboot_info_t) + k.sizeof_memory_map_t))
                  (Blob.mmap
                    { size := k.sizeof_memory_map_t, base_addr_low := 640 * 1024
                      base_addr_high := 0, length_low := 384 * 1024, length_high := 0
                      type := k.MB_TYPE_RESERVED })
                  k.sizeof_memory_map_t,
                Effect.memcpy
                  (u64 (u64 (u64 (hva + k.sizeof_multiboot_info_t) + k.sizeof_memory_map_t)
                    + k.sizeof_memory_map_t))
                  (Blob.mmap
                    { size := k.sizeof_memory_map_t, base_addr_low := 1024 * 1024
                      base_addr_high := 0
                      length_low := (gInfo.phys_sz - 0x100000) % 2 ^ 32
                      length_high := (gInfo.phys_sz - 0x100000) / 2 ^ 32
                      type := k.MB_TYPE_USABLE })
                  k.sizeof_memory_map_t ] }) ∧
    ept_gpa2hva k m2 0x6000 = hva := by
  refine ⟨?_, mbmap_backing_hva k s.mem hva m2 hpg hhva hback⟩
  rw [handle_vmcall_mbmap_eq k tf gInfo vmcs s hva m2 hcall hback,
    build_mbmap_eq k gInfo hfit hsz]
  rfl

/-- The memory-map call of a guest of 64 MiB with no frame resident at 0x6000:
frame 5 is allocated and mapped. -/
theorem handle_vmcall_mbmap_layout_witness :
    ept_gpa2hva spec_consts
      (ept_map_hva2gpa spec_consts (pp_ref_incr { mem0 with page_free_list := [6] } 5)
        0x8004005000 0x6000 7 false).2 0x6000 = 0x8004005000 :=
  (handle_vmcall_mbmap_layout spec_consts (tf_of 1 0 0x1000) (guest_of_size 0x4000000)
    (vmcs_fault 0) kernel0 0x8004005000
    (ept_map_hva2gpa spec_consts (pp_ref_incr { mem0 with page_free_list := [6] } 5)
        0x8004005000 0x6000 7 false).2
    rfl (by decide) (by decide) (by decide) (by decide)
    (Or.inr ⟨rfl, 5, { mem0 with page_free_list := [6] }, rfl, rfl, by decide, rfl⟩)).2

/-- C9, as stated, fails: for a guest of 64 MiB the three entries the call
copies out have lengths that sum to 64 MiB, the configured size itself, not
to 64 MiB plus 384 KiB. -/
theorem handle_vmcall_mbmap_lengths_sum_to_size :
    ((entries_written kernel0
      (handle_vmcall spec_consts (tf_of 1 0 0x1000) (guest_of_size 0x4000000) (vmcs_fault 0)
        kernel0)).map length64).sum = 0x4000000 ∧
    (0x4000000 : Nat) ≠ 0x4000000 + 384 * 1024 := by
  constructor
  · rfl
  · decide

theorem entries_written_mbmap (k : Consts) (s : Kernel) (b : Bool) (tf : Trapframe)
    (m2 : Mem) (mb : MbMap) (hva : Nat) :
    entries_written s
      (.ok (b, tf, { s with mem := m2, effects := s.effects ++ copy_mbmap k mb hva }))
      = [mb.lomap, mb.iohole, mb.himap] := by
  simp [entries_written, copy_mbmap, written_entries]

/-- C9, amended: for every 64-bit configured size, when a backing frame for
guest physical address 0x6000 is resident or is allocated and mapped, the
memory-map call returns handled and copies out exactly 3 entries; their
64-bit lengths sum to the configured size modulo 2^64, and to the configured
size itself when it is at least 1 MiB (the 384 KiB hole is part of that sum);
the second entry has the reserved type. -/
theorem handle_vmcall_mbmap_lengths (k : Consts) (tf : Trapframe) (gInfo : VmxGuestInfo)
    (vmcs : Vmcs) (s : Kernel) (hva : Nat) (m2 : Mem)
    (hcall : tf.tf_regs.reg_rax = k.VMX_VMCALL_MBMAP)
    (hsz : gInfo.phys_sz < 2 ^ 64)
    (hback : mbmap_backing k s.mem hva m2) :
    returned (handle_vmcall k tf gInfo vmcs s) = some true ∧
    (entries_written s (handle_vmcall k tf gInfo vmcs s)).length = 3 ∧
    ((entries_written s (handle_vmcall k tf gInfo vmcs s)).map length64).sum % 2 ^ 64
      = gInfo.phys_sz ∧
    (0x100000 ≤ gInfo.phys_sz →
      ((entries_written s (handle_vmcall k tf gInfo vmcs s)).map length64).sum
        = gInfo.phys_sz) ∧
    ((entries_written s (handle_vmcall k tf gInfo vmcs s)).map memory_map_t.type)[1]?
      = some (u32 k.MB_TYPE_RESERVED) := by
  rw [handle_vmcall_mbmap_eq k tf gInfo vmcs s hva m2 hcall hback, entries_written_mbmap]
  have hlen : ∀ x : Nat, x < 2 ^ 64 → (x >>> 32 % 2 ^ 32) * 2 ^ 32 + x % 2 ^ 32 = x := by
    intro x hx
    rw [Nat.shiftRight_eq_div_pow]
    omega
  have hwlt : wrap64 ((gInfo.phys_sz : Int) - 1024 * 1024) < 2 ^ 64 := by
    unfold wrap64; omega
  have hsum : (([(build_mbmap k gInfo).lomap, (build_mbmap k gInfo).iohole,
      (build_mbmap k gInfo).himap].map length64).sum)
      = 0x100000 + wrap64 ((gInfo.phys_sz : Int) - 1024 * 1024) := by
    simp only [build_mbmap, List.map, List.sum_cons, List.sum_nil, length64, u32]
    rw [hlen _ hwlt]
    norm_num
    omega
  refine ⟨rfl, rfl, ?_, ?_, rfl⟩
  · rw [hsum]; unfold wrap64; omega
  · intro h1; rw [hsum]; unfold wrap64; omega

/-- The lengths copied out for a guest of 128 MiB. -/
theorem handle_vmcall_mbmap_lengths_witness :
    ((entries_written kernel0
      (handle_vmcall spec_consts (tf_of 1 0 0x2000) (guest_of_size 0x8000000) (vmcs_fault 0)
        kernel0)).map length64).sum % 2 ^ 64 = (guest_of_size 0x8000000).phys_sz :=
  (handle_vmcall_mbmap_lengths spec_consts (tf_of 1 0 0x2000) (guest_of_size 0x8000000)
    (vmcs_fault 0) kernel0 0x8004005000
    (ept_map_hva2gpa spec_consts (pp_ref_incr { mem0 with page_free_list := [6] } 5)
        0x8004005000 0x6000 7 false).2
    rfl (by decide)
    (Or.inr ⟨rfl, 5, { mem0 with page_free_list := [6] }, rfl, rfl, by decide, rfl⟩)).2.2.1

/-! ## The message-send hypercall -/

/-- C10 fails on the code: a message-send call whose destination type in
`rbx` is 0, not the file system type, invokes no host primitive, but the
handler returns `E_INVAL` through its `bool` result, which reads as handled;
`rax` still holds the call number 2, no error code, and `rip` is not
advanced. -/
theorem handle_vmcall_ipcsend_wrong_type :
    u32 (tf_of 2 0 0x1000).tf_regs.reg_rbx ≠ spec_consts.ENV_TYPE_FS ∧
    returned (handle_vmcall spec_consts (tf_of 2 0 0x1000) (guest_of_size 0x4000000)
      (vmcs_fault 0) kernel0) = some true ∧
    tf_after (handle_vmcall spec_consts (tf_of 2 0 0x1000) (guest_of_size 0x4000000)
      (vmcs_fault 0) kernel0) = some (tf_of 2 0 0x1000) ∧
    effects_after (handle_vmcall spec_consts (tf_of 2 0 0x1000) (guest_of_size 0x4000000)
      (vmcs_fault 0) kernel0) = some [] := by
  refine ⟨by decide, rfl, rfl, rfl⟩

/-! ## MSR emulation -/

/-- C11, as stated, fails: the store holds EFER = 0 and the guest writes
0x100, so the long-mode-enable bit goes from 0 to 1; `handle_wrmsr` stores
the value and advances `rip`, but writes the VM-entry controls back as it
read them: they were 0 and are 0 afterwards, no bit is set. -/
theorem handle_wrmsr_lme_leaves_entry_ctls :
    BIT 0 spec_consts.EFER_LME = 0 ∧ BIT 0x100 spec_consts.EFER_LME = 1 ∧
    entry_ctls_after (handle_wrmsr spec_consts (tf_msr 0xC0000080 0x100 0)
      (guest_with_msrs [⟨0xC0000080, 0⟩]) (vmcs_fault 0)) = some 0 ∧
    store_after (handle_wrmsr spec_consts (tf_msr 0xC0000080 0x100 0)
      (guest_with_msrs [⟨0xC0000080, 0⟩]) (vmcs_fault 0)) = some [⟨0xC0000080, 0x100⟩] ∧
    wrmsr_tf_after (handle_wrmsr spec_consts (tf_msr 0xC0000080 0x100 0)
      (guest_with_msrs [⟨0xC0000080, 0⟩]) (vmcs_fault 0))
      = some { tf_msr 0xC0000080 0x100 0 with tf_rip := 0x1003 } := by
  refine ⟨by decide, by decide, rfl, rfl, rfl⟩

theorem find_msr_in_region_loop_hit (msr_idx : Nat) (entry : vmx_msr_entry) (n : Nat)
    (he : entry.msr_index = msr_idx) (hn : 0 < n) :
    find_msr_in_region_loop msr_idx entry n = some entry := by
  cases n with
  | zero => omega
  | succ m => simp [find_msr_in_region_loop, he]

/-- C11, amended: for every guest write to the extended-feature-enable
register (`rcx = EFER_MSR`, a 32-bit index held by the first entry of a
non-empty store) in which the stored value has the long-mode-enable bit 0
and the new value `(rdx << 32) | rax` has it 1, `handle_wrmsr` returns
handled and writes the 32-bit VM-entry controls back as it read them, so the
VMCS, the 64-bit-guest bit included, is as before; the entry holds the new
value, the rest of the store is unchanged, and `rip` is advanced by the
instruction length modulo 2^64. -/
theorem handle_wrmsr_lme_writes_back_entry_ctls (k : Consts) (tf : Trapframe)
    (ginfo : VmxGuestInfo) (vmcs : Vmcs) (entry : vmx_msr_entry) (rest : List vmx_msr_entry)
    (hrcx : tf.tf_regs.reg_rcx = k.EFER_MSR) (hidx : k.EFER_MSR < 2 ^ 32)
    (harea : ginfo.msr_guest_area = entry :: rest) (hcnt : 0 < ginfo.msr_count)
    (hentry : entry.msr_index = k.EFER_MSR)
    (hctl : vmcs.VMCS_32BIT_CONTROL_VMENTRY_CONTROLS < 2 ^ 32)
    (hlme : BIT entry.msr_value k.EFER_LME = 0 ∧
      BIT (u64 (tf.tf_regs.reg_rdx <<< 32) ||| tf.tf_regs.reg_rax) k.EFER_LME = 1) :
    handle_wrmsr k tf ginfo vmcs =
      .ok (true,
        { tf with
            tf_rip :=
              (tf.tf_rip + vmcs.VMCS_32BIT_VMEXIT_INSTRUCTION_LENGTH % 2 ^ 32) % 2 ^ 64 },
        { ginfo with
            msr_guest_area :=
              { msr_index := entry.msr_index
                msr_value := u64 (tf.tf_regs.reg_rdx <<< 32) ||| tf.tf_regs.reg_rax } :: rest },
        vmcs) := by
  have hfind : find_msr_in_region k.EFER_MSR (entry :: rest) ginfo.msr_count
      = some entry := by
    simp only [find_msr_in_region]
    have hu : u32 k.EFER_MSR = k.EFER_MSR := Nat.mod_eq_of_lt hidx
    rw [hu]
    exact find_msr_in_region_loop_hit _ _ _ hentry (by omega)
  have hc : u32 (vmcs_read32 vmcs.VMCS_32BIT_CONTROL_VMENTRY_CONTROLS)
      = vmcs.VMCS_32BIT_CONTROL_VMENTRY_CONTROLS := by
    unfold vmcs_read32 u32
    rw [Nat.mod_mod, Nat.mod_eq_of_lt hctl]
  unfold handle_wrmsr
  simp only [hrcx, if_true, harea, hfind, hlme.1, hlme.2, and_self, hc, List.tail_cons]
  rfl

/-- The write of 0x100 over a stored EFER of 0, with VM-entry controls 0. -/
theorem handle_wrmsr_lme_writes_back_entry_ctls_witness :
    handle_wrmsr spec_consts (tf_msr 0xC0000080 0x100 0) (guest_with_msrs [⟨0xC0000080, 0⟩])
      (vmcs_fault 0) =
      .ok (true,
        { tf_msr 0xC0000080 0x100 0 with
            tf_rip :=
              ((tf_msr 0xC0000080 0x100 0).tf_rip
                + (vmcs_fault 0).VMCS_32BIT_VMEXIT_INSTRUCTION_LENGTH % 2 ^ 32) % 2 ^ 64 },
        { guest_with_msrs [⟨0xC0000080, 0⟩] with
            msr_guest_area :=
              [{ msr_index := 0xC0000080
                 msr_value := u64 ((tf_msr 0xC0000080 0x100 0).tf_regs.reg_rdx <<< 32) |||
                   (tf_msr 0xC0000080 0x100 0).tf_regs.reg_rax }] },
        vmcs_fault 0) :=
  handle_wrmsr_lme_writes_back_entry_ctls spec_consts (tf_msr 0xC0000080 0x100 0)
    (guest_with_msrs [⟨0xC0000080, 0⟩]) (vmcs_fault 0) ⟨0xC0000080, 0⟩ [] rfl (by decide) rfl
    (by decide) rfl (by decide) (by decide)

/-- C12 fails on the code: in a store of two entries with distinct indices,
the index of the second entry is not found, because every iteration of the
loop tests the first entry; only the index of the first entry is found. -/
theorem find_msr_in_region_tests_first_entry_only :
    find_msr_in_region 0xC0000080 [⟨0x174, 0⟩, ⟨0xC0000080, 0x500⟩] 2 = none ∧
    find_msr_in_region 0x174 [⟨0x174, 0⟩, ⟨0xC0000080, 0x500⟩] 2 = some ⟨0x174, 0⟩ := by
  constructor <;> rfl

/-- C18 fails on the code: the guest writes EFER = 0x100000500 as
edx:eax = 1:0x500 and the store holds that value, but the following
`handle_rdmsr` leaves `rdx = 0x500 << 32`, the low half shifted up, where the
claim has `rdx = v >> 32 = 1`; `rax = 0x500` is as claimed. -/
theorem handle_rdmsr_after_wrmsr_high_half :
    store_after (handle_wrmsr spec_consts (tf_msr 0xC0000080 0x500 1)
      (guest_with_msrs [⟨0xC0000080, 0⟩]) (vmcs_fault 0)) = some [⟨0xC0000080, 0x100000500⟩] ∧
    rdmsr_after_wrmsr spec_consts (tf_msr 0xC0000080 0x500 1) (tf_msr 0xC0000080 0 0)
      (guest_with_msrs [⟨0xC0000080, 0⟩]) (vmcs_fault 0)
      = some { tf_regs := { reg_rax := 0x500, reg_rbx := 0, reg_rcx := 0xC0000080,
                            reg_rdx := 0x50000000000, reg_rsi := 0 }
               tf_rip := 0x1003 } ∧
    (0x100000500 : Nat) >>> 32 = 1 := by
  refine ⟨rfl, rfl, by decide⟩

/-! ## Interrupt injection -/

theorem and_not_mask (x c : Nat) (hc : c < 2 ^ 32) : (x &&& (0xFFFFFFFF - c)) &&& c = 0 := by
  apply Nat.eq_of_testBit_eq
  intro i
  have h : (0xFFFFFFFF - c : Nat) = 2 ^ 32 - (c + 1) := by omega
  rw [h, Nat.testBit_and, Nat.testBit_and, Nat.testBit_two_pow_sub_succ hc, Nat.zero_testBit]
  cases c.testBit i <;> simp

/-- C13, as stated, fails: with the guest's interrupt-enable flag set
(`RFLAGS = 0x202`) and the interrupt-window bit armed (controls 0x4),
`handle_interrupts` writes the vector 33 and returns handled, and the
controls are 0x4 afterwards: the bit is still armed. -/
theorem handle_interrupts_keeps_window_armed :
    handle_interrupts spec_consts (tf_of 0 0 0x1000) (vmcs_intr 0x202 0x4) 33
      = (true, tf_of 0 0 0x1000,
          { vmcs_intr 0x202 0x4 with VMCS_32BIT_CONTROL_VMENTRY_INTERRUPTION_INFO := 33 }) ∧
    (handle_interrupts spec_consts (tf_of 0 0 0x1000) (vmcs_intr 0x202 0x4)
      33).2.2.VMCS_32BIT_CONTROL_PROCESSOR_BASED_VMEXEC_CONTROLS
        &&& spec_consts.VMCS_PROC_BASED_VMEXEC_CTL_INTRWINEXIT = 0x4 := by
  constructor
  · rfl
  · decide

/-- C13, amended: with a 32-bit vector `v` and a 32-bit mask for the
interrupt-window bit, `handle_interrupts` returns handled and leaves the trap
frame as it was; if bit 9 of `RFLAGS` is clear it sets the interrupt-window
bit in the processor-based controls and changes nothing else, the
entry-interruption field included; if bit 9 is set it writes `v` into the
entry-interruption field and changes nothing else, so the interrupt-window
bit stays as it was.  The bit is cleared by `handle_interrupt_window`, which
also writes `v` and leaves the trap frame as it was. -/
theorem handle_interrupts_defers_or_injects (k : Consts) (tf : Trapframe) (vmcs : Vmcs)
    (v : Nat) (hc : k.VMCS_PROC_BASED_VMEXEC_CTL_INTRWINEXIT < 2 ^ 32) (hv : v < 2 ^ 32) :
    (vmcs_read64 vmcs.VMCS_GUEST_RFLAGS &&& 0x200 = 0 →
      handle_interrupts k tf vmcs v =
        (true, tf,
          { vmcs with
              VMCS_32BIT_CONTROL_PROCESSOR_BASED_VMEXEC_CONTROLS :=
                vmcs.VMCS_32BIT_CONTROL_PROCESSOR_BASED_VMEXEC_CONTROLS % 2 ^ 32 |||
                  k.VMCS_PROC_BASED_VMEXEC_CTL_INTRWINEXIT })) ∧
    (vmcs_read64 vmcs.VMCS_GUEST_RFLAGS &&& 0x200 ≠ 0 →
      handle_interrupts k tf vmcs v =
        (true, tf, { vmcs with VMCS_32BIT_CONTROL_VMENTRY_INTERRUPTION_INFO := v })) ∧
    (handle_interrupt_window k tf vmcs v).1 = true ∧
    (handle_interrupt_window k tf vmcs v).2.1 = tf ∧
    (handle_interrupt_window k tf vmcs v).2.2.VMCS_32BIT_CONTROL_VMENTRY_INTERRUPTION_INFO = v ∧
    (handle_interrupt_window k tf vmcs v).2.2.VMCS_32BIT_CONTROL_PROCESSOR_BASED_VMEXEC_CONTROLS
      &&& k.VMCS_PROC_BASED_VMEXEC_CTL_INTRWINEXIT = 0 := by
  have hv1 : u32 v = v := Nat.mod_eq_of_lt hv
  have hc1 : u32 k.VMCS_PROC_BASED_VMEXEC_CTL_INTRWINEXIT
      = k.VMCS_PROC_BASED_VMEXEC_CTL_INTRWINEXIT := Nat.mod_eq_of_lt hc
  have hshift : (0x1 <<< 9 : Nat) = 0x200 := by decide
  refine ⟨?_, ?_, rfl, rfl, ?_, ?_⟩
  · intro h
    have hor : u32 (vmcs_read32 vmcs.VMCS_32BIT_CONTROL_PROCESSOR_BASED_VMEXEC_CONTROLS |||
        k.VMCS_PROC_BASED_VMEXEC_CTL_INTRWINEXIT)
        = vmcs.VMCS_32BIT_CONTROL_PROCESSOR_BASED_VMEXEC_CONTROLS % 2 ^ 32 |||
          k.VMCS_PROC_BASED_VMEXEC_CTL_INTRWINEXIT := by
      unfold vmcs_read32 u32
      exact Nat.mod_eq_of_lt (Nat.or_lt_two_pow (Nat.mod_lt _ (by norm_num)) hc)
    unfold handle_interrupts
    simp only [hshift, h, if_true, hor]
  · intro h
    unfold handle_interrupts
    simp only [hshift, h, if_false, hv1]
  · simp only [handle_interrupt_window, hv1]
  · simp only [handle_interrupt_window, hc1]
    have hlt : vmcs_read32 vmcs.VMCS_32BIT_CONTROL_PROCESSOR_BASED_VMEXEC_CONTROLS &&&
        (0xFFFFFFFF - k.VMCS_PROC_BASED_VMEXEC_CTL_INTRWINEXIT) < 2 ^ 32 :=
      Nat.and_lt_two_pow _ (by omega)
    have hu : u32 (vmcs_read32 vmcs.VMCS_32BIT_CONTROL_PROCESSOR_BASED_VMEXEC_CONTROLS &&&
        (0xFFFFFFFF - k.VMCS_PROC_BASED_VMEXEC_CTL_INTRWINEXIT))
        = vmcs_read32 vmcs.VMCS_32BIT_CONTROL_PROCESSOR_BASED_VMEXEC_CONTROLS &&&
          (0xFFFFFFFF - k.VMCS_PROC_BASED_VMEXEC_CTL_INTRWINEXIT) := Nat.mod_eq_of_lt hlt
    rw [hu]
    exact and_not_mask _ _ hc

/-- The two branches of `handle_interrupts` and `handle_interrupt_window` on
a VMCS whose controls are 0x4 and whose `RFLAGS` has bit 9 set. -/
theorem handle_interrupts_defers_or_injects_witness :
    (handle_interrupt_window spec_consts (tf_of 0 0 0x1000) (vmcs_intr 0x202 0x4)
      33).2.2.VMCS_32BIT_CONTROL_PROCESSOR_BASED_VMEXEC_CONTROLS
        &&& spec_consts.VMCS_PROC_BASED_VMEXEC_CTL_INTRWINEXIT = 0 :=
  (handle_interrupts_defers_or_injects spec_consts (tf_of 0 0 0x1000) (vmcs_intr 0x202 0x4) 33
    (by decide) (by decide)).2.2.2.2.2

/-! ## The remaining hypercalls -/

theorem vmcall_labels_ne (k : Consts) :
    k.VMX_VMCALL_IPCSEND ≠ k.VMX_VMCALL_MBMAP ∧
    k.VMX_VMCALL_IPCRECV ≠ k.VMX_VMCALL_MBMAP ∧
    k.VMX_VMCALL_IPCRECV ≠ k.VMX_VMCALL_IPCSEND ∧
    k.VMX_VMCALL_LAPICEOI ≠ k.VMX_VMCALL_MBMAP ∧
    k.VMX_VMCALL_LAPICEOI ≠ k.VMX_VMCALL_IPCSEND ∧
    k.VMX_VMCALL_LAPICEOI ≠ k.VMX_VMCALL_IPCRECV ∧
    k.VMX_VMCALL_BACKTOHOST ≠ k.VMX_VMCALL_MBMAP ∧
    k.VMX_VMCALL_BACKTOHOST ≠ k.VMX_VMCALL_IPCSEND ∧
    k.VMX_VMCALL_BACKTOHOST ≠ k.VMX_VMCALL_IPCRECV ∧
    k.VMX_VMCALL_BACKTOHOST ≠ k.VMX_VMCALL_LAPICEOI ∧
    k.VMX_VMCALL_GETDISKIMGNUM ≠ k.VMX_VMCALL_MBMAP ∧
    k.VMX_VMCALL_GETDISKIMGNUM ≠ k.VMX_VMCALL_IPCSEND ∧
    k.VMX_VMCALL_GETDISKIMGNUM ≠ k.VMX_VMCALL_IPCRECV ∧
    k.VMX_VMCALL_GETDISKIMGNUM ≠ k.VMX_VMCALL_LAPICEOI ∧
    k.VMX_VMCALL_GETDISKIMGNUM ≠ k.VMX_VMCALL_BACKTOHOST := by
  have h := k.vmcall_nodup
  simp only [List.nodup_cons, List.mem_cons, List.mem_singleton, not_or, List.not_mem_nil,
    not_false_eq_true, List.nodup_nil, and_true] at h
  obtain ⟨⟨a1, a2, a3, a4, a5⟩, ⟨b1, b2, b3, b4⟩, ⟨c1, c2, c3⟩, ⟨d1, d2⟩, e1⟩ := h
  exact ⟨Ne.symm a1, Ne.symm a2, Ne.symm b1, Ne.symm a3, Ne.symm b2, Ne.symm c1, Ne.symm a4,
    Ne.symm b3, Ne.symm c2, Ne.symm d1, Ne.symm a5, Ne.symm b4, Ne.symm c3, Ne.symm d2,
    Ne.symm e1⟩

theorem vmdisk_after_eq (n : Nat) (hn : n < 2 ^ 31) : vmdisk_after n = n := by
  induction n with
  | zero => rfl
  | succ m ih =>
    have hm : vmdisk_after m = m := ih (by omega)
    simp only [vmdisk_after, hm, vmx_incr_vmdisk_number, sint32]
    push_cast
    omega

/-- C17: the counter starts at 0; for every `n < 2^31`, after `n` calls of
`vmx_incr_vmdisk_number` the getter returns `n`, and the disk-index call on a
kernel state holding that counter returns handled with `n` in `rax`, `rip`
advanced by the instruction length, and the kernel state, the counter
included, as it was; fewer calls give a strictly smaller value. -/
theorem vmdisk_number_counts_guests (n : Nat) (hn : n < 2 ^ 31) :
    vmx_get_vmdisk_number (vmdisk_after 0) = 0 ∧
    vmx_get_vmdisk_number (vmdisk_after n) = n ∧
    (∀ (k : Consts) (tf : Trapframe) (gInfo : VmxGuestInfo) (vmcs : Vmcs) (s : Kernel),
      tf.tf_regs.reg_rax = k.VMX_VMCALL_GETDISKIMGNUM → s.vmdisk_number = vmdisk_after n →
      handle_vmcall k tf gInfo vmcs s =
        .ok (true,
          { tf_regs := { tf.tf_regs with reg_rax := n }
            tf_rip :=
              (tf.tf_rip + vmcs.VMCS_32BIT_VMEXIT_INSTRUCTION_LENGTH % 2 ^ 32) % 2 ^ 64 },
          s)) ∧
    (∀ m, m < n →
      vmx_get_vmdisk_number (vmdisk_after m) < vmx_get_vmdisk_number (vmdisk_after n)) := by
  refine ⟨rfl, ?_, ?_, ?_⟩
  · simp only [vmx_get_vmdisk_number, vmdisk_after_eq n hn]
  · intro k tf gInfo vmcs s hcall hs
    obtain ⟨_, _, _, _, _, _, _, _, _, _, n1, n2, n3, n4, n5⟩ := vmcall_labels_ne k
    have hw : wrap64 (n : Int) = n := by
      unfold wrap64
      omega
    unfold handle_vmcall handle_vmcall_switch
    simp only [hcall, n1, n2, n3, n4, n5, if_false, if_true, hs, vmdisk_after_eq n hn, hw]
    rfl
  · intro m hm
    simp only [vmx_get_vmdisk_number, vmdisk_after_eq n hn, vmdisk_after_eq m (by omega)]
    exact_mod_cast hm

/-- The counter after three guests, and the value a fourth guest is told. -/
theorem vmdisk_number_counts_guests_witness :
    vmx_get_vmdisk_number (vmdisk_after 3) = 3 :=
  (vmdisk_number_counts_guests 3 (by decide)).2.1

/-- C14 fails on the code: a message-receive call whose receive completes
returns unhandled, and the `rip` of the trap frame is 0x1003 where it was
0x1000 at entry: the advance made before the receive stays. -/
theorem handle_vmcall_ipcrecv_unhandled_advances :
    (tf_of 3 0x7000 0x1000).tf_rip = 0x1000 ∧
    returned (handle_vmcall spec_consts (tf_of 3 0x7000 0x1000) (guest_of_size 0x4000000)
      (vmcs_fault 0) kernel0) = some false ∧
    (tf_after (handle_vmcall spec_consts (tf_of 3 0x7000 0x1000) (guest_of_size 0x4000000)
      (vmcs_fault 0) kernel0)).map Trapframe.tf_rip = some 0x1003 := by
  refine ⟨rfl, rfl, rfl⟩

set_option maxRecDepth 20000 in
/-- C15 fails on the code: a message-send call addressed to the file system
type while no environment has that type returns `E_INVAL` through the `bool`
result, which reads as handled, and leaves the trap frame, `rip` included,
as it was; no host primitive is invoked. -/
theorem handle_vmcall_ipcsend_no_fs_env :
    u32 (tf_of 2 2 0x1000).tf_regs.reg_rbx = spec_consts.ENV_TYPE_FS ∧
    returned (handle_vmcall spec_consts (tf_of 2 2 0x1000) (guest_of_size 0x4000000)
      (vmcs_fault 0) kernel_no_fs) = some true ∧
    tf_after (handle_vmcall spec_consts (tf_of 2 2 0x1000) (guest_of_size 0x4000000)
      (vmcs_fault 0) kernel_no_fs) = some (tf_of 2 2 0x1000) ∧
    effects_after (handle_vmcall spec_consts (tf_of 2 2 0x1000) (guest_of_size 0x4000000)
      (vmcs_fault 0) kernel_no_fs) = some [] := by
  refine ⟨by decide, ?_, ?_, ?_⟩ <;> rfl

/-- C16 fails on the code: a message-receive call with buffer address 0x7000
in `rbx`, whose receive completes with result 0 and value 42, issues the
receive against 0x7000, advances `rip` once (0x2000 to 0x2003) and leaves 0
in `rax` and 42 in `rsi`, but returns unhandled. -/
theorem handle_vmcall_ipcrecv_completes_unhandled :
    returned (handle_vmcall spec_consts (tf_of 3 0x7000 0x2000) (guest_of_size 0x4000000)
      (vmcs_fault 0) kernel_recv) = some false ∧
    tf_after (handle_vmcall spec_consts (tf_of 3 0x7000 0x2000) (guest_of_size 0x4000000)
      (vmcs_fault 0) kernel_recv)
      = some { tf_regs := { reg_rax := 0, reg_rbx := 0x7000, reg_rcx := 0, reg_rdx := 0,
                            reg_rsi := 42 }
               tf_rip := 0x2003 } ∧
    effects_after (handle_vmcall spec_consts (tf_of 3 0x7000 0x2000) (guest_of_size 0x4000000)
      (vmcs_fault 0) kernel_recv) = some [Effect.sys_ipc_recv 0x7000] := by
  refine ⟨rfl, rfl, rfl⟩

/-- C20 fails on the code: with no frame resident at 0x6000 and no free
frame, the memory-map call dereferences the null frame; and when mapping the
new frame fails it returns the negative code through the `bool` result,
which reads as handled (nothing is copied, `rbx` and `rip` stay). -/
theorem handle_vmcall_mbmap_without_frame :
    faulted (handle_vmcall spec_consts (tf_of 1 0 0x1000) (guest_of_size 0x4000000)
      (vmcs_fault 0) kernel_no_frames) = some Fault.null_deref ∧
    returned (handle_vmcall spec_consts (tf_of 1 0 0x1000) (guest_of_size 0x4000000)
      (vmcs_fault 0) kernel_no_tables) = some true ∧
    tf_after (handle_vmcall spec_consts (tf_of 1 0 0x1000) (guest_of_size 0x4000000)
      (vmcs_fault 0) kernel_no_tables) = some (tf_of 1 0 0x1000) ∧
    effects_after (handle_vmcall spec_consts (tf_of 1 0 0x1000) (guest_of_size 0x4000000)
      (vmcs_fault 0) kernel_no_tables) = some [] := by
  refine ⟨rfl, rfl, rfl, rfl⟩

/-! ## The index latch -/

theorem int32_low_32 (a b : Nat) (h : a % 2 ^ 32 = b % 2 ^ 32) : int32 a = int32 b := by
  unfold int32
  rw [h]

/-- C19, as stated, fails: with `rax = 0x10F` at the write to the index port
the low byte is the index 0x0F, but the latch takes 0x10F, and the following
read of the data port is unhandled. -/
theorem handle_ioinstr_high_bits_reach_latch :
    (tf_of 0x10F 0 0x1000).tf_regs.reg_rax &&& 0xFF = 0x0F ∧
    spec_consts.NVRAM_BASELO = 0x0F ∧
    (handle_ioinstr spec_consts (tf_of 0x10F 0 0x1000) (guest_of_size 0x4000000)
      vmcs_rtc_index_write 0).2.2 = 0x10F ∧
    (handle_ioinstr spec_consts (tf_of 0 0 0x1001) (guest_of_size 0x4000000) vmcs_rtc_data_read
      (handle_ioinstr spec_consts (tf_of 0x10F 0 0x1000) (guest_of_size 0x4000000)
        vmcs_rtc_index_write 0).2.2).1 = false := by
  refine ⟨by decide, by decide, by decide, by decide⟩

/-- C19, amended: a write exit on the index port is always handled and
latches `rax` converted to a 32-bit `int`, which depends only on the low 32
bits of `rax`; whenever that value is one of the four recognised indices
(pairwise distinct), the following read exit on the data port is handled
and returns the corresponding byte; a read exit on the data port never
changes the latch. -/
theorem handle_ioinstr_latches_low_32_bits (k : Consts) (ginfo : VmxGuestInfo)
    (tf_w tf_r : Trapframe) (vw vr : Vmcs) (latch0 : Int)
    (hk : [k.NVRAM_BASELO, k.NVRAM_BASEHI, k.NVRAM_EXTLO, k.NVRAM_EXTHI].Nodup)
    (hw : port_number vw = k.IO_RTC ∧ is_in vw = false)
    (hr : port_number vr = k.IO_RTC + 1 ∧ is_in vr = true) :
    (handle_ioinstr k tf_w ginfo vw latch0).1 = true ∧
    (handle_ioinstr k tf_w ginfo vw latch0).2.2 = int32 tf_w.tf_regs.reg_rax ∧
    (∀ tf2 : Trapframe, tf2.tf_regs.reg_rax % 2 ^ 32 = tf_w.tf_regs.reg_rax % 2 ^ 32 →
      (handle_ioinstr k tf2 ginfo vw latch0).2.2 = (handle_ioinstr k tf_w ginfo vw latch0).2.2) ∧
    (int32 tf_w.tf_regs.reg_rax = k.NVRAM_BASELO →
      (handle_ioinstr k tf_r ginfo vr (handle_ioinstr k tf_w ginfo vw latch0).2.2).1 = true ∧
      (handle_ioinstr k tf_r ginfo vr
        (handle_ioinstr k tf_w ginfo vw latch0).2.2).2.1.tf_regs.reg_rax = 640 &&& 0xFF) ∧
    (int32 tf_w.tf_regs.reg_rax = k.NVRAM_BASEHI →
      (handle_ioinstr k tf_r ginfo vr (handle_ioinstr k tf_w ginfo vw latch0).2.2).1 = true ∧
      (handle_ioinstr k tf_r ginfo vr
        (handle_ioinstr k tf_w ginfo vw latch0).2.2).2.1.tf_regs.reg_rax
          = (640 >>> 8) &&& 0xFF) ∧
    (int32 tf_w.tf_regs.reg_rax = k.NVRAM_EXTLO →
      (handle_ioinstr k tf_r ginfo vr (handle_ioinstr k tf_w ginfo vw latch0).2.2).1 = true ∧
      (handle_ioinstr k tf_r ginfo vr
        (handle_ioinstr k tf_w ginfo vw latch0).2.2).2.1.tf_regs.reg_rax
          = ext_kb ginfo &&& 0xFF) ∧
    (int32 tf_w.tf_regs.reg_rax = k.NVRAM_EXTHI →
      (handle_ioinstr k tf_r ginfo vr (handle_ioinstr k tf_w ginfo vw latch0).2.2).1 = true ∧
      (handle_ioinstr k tf_r ginfo vr
        (handle_ioinstr k tf_w ginfo vw latch0).2.2).2.1.tf_regs.reg_rax
          = (ext_kb ginfo >>> 8) &&& 0xFF) ∧
    (∀ latch : Int, (handle_ioinstr k tf_r ginfo vr latch).2.2 = latch) := by
  simp only [List.nodup_cons, List.mem_cons, List.mem_singleton, not_or, List.not_mem_nil,
    not_false_eq_true, List.nodup_nil, and_true] at hk
  obtain ⟨⟨h12, h13, h14⟩, ⟨h23, h24⟩, h34⟩ := hk
  have h21 : ¬ (k.NVRAM_BASEHI = k.NVRAM_BASELO) := fun h => h12 h.symm
  have h31 : ¬ (k.NVRAM_EXTLO = k.NVRAM_BASELO) := fun h => h13 h.symm
  have h32 : ¬ (k.NVRAM_EXTLO = k.NVRAM_BASEHI) := fun h => h23 h.symm
  have h41 : ¬ (k.NVRAM_EXTHI = k.NVRAM_BASELO) := fun h => h14 h.symm
  have h42 : ¬ (k.NVRAM_EXTHI = k.NVRAM_BASEHI) := fun h => h24 h.symm
  have h43 : ¬ (k.NVRAM_EXTHI = k.NVRAM_EXTLO) := fun h => h34 h.symm
  rw [handle_ioinstr_index_write_eq k tf_w ginfo vw latch0 hw.1 hw.2]
  refine ⟨rfl, rfl, ?_, ?_, ?_, ?_, ?_, ?_⟩
  · intro tf2 h2
    rw [handle_ioinstr_index_write_eq k tf2 ginfo vw latch0 hw.1 hw.2]
    exact int32_low_32 _ _ h2
  · intro c
    simp only []
    rw [handle_ioinstr_data_read_eq k tf_r ginfo vr _ hr.1 hr.2, c]
    simp [advance_rip]
  · intro c
    simp only []
    rw [handle_ioinstr_data_read_eq k tf_r ginfo vr _ hr.1 hr.2, c]
    simp [advance_rip, h21]
  · intro c
    simp only []
    rw [handle_ioinstr_data_read_eq k tf_r ginfo vr _ hr.1 hr.2, c]
    simp [advance_rip, h31, h32]
  · intro c
    simp only []
    rw [handle_ioinstr_data_read_eq k tf_r ginfo vr _ hr.1 hr.2, c]
    simp [advance_rip, h41, h42, h43]
  · intro latch
    rw [handle_ioinstr_data_read_eq k tf_r ginfo vr latch hr.1 hr.2]
    split_ifs <;> rfl

/-- The value 0x1_0000_0030 written to the index port latches 0x30, and the
read that follows returns the low byte of the extended size. -/
theorem handle_ioinstr_latches_low_32_bits_witness :
    (handle_ioinstr spec_consts (tf_of 0 0 0x1001) (guest_of_size 0x4000000) vmcs_rtc_data_read
      (handle_ioinstr spec_consts (tf_of 0x100000030 0 0x1000) (guest_of_size 0x4000000)
        vmcs_rtc_index_write 0).2.2).1 = true ∧
    (handle_ioinstr spec_consts (tf_of 0 0 0x1001) (guest_of_size 0x4000000) vmcs_rtc_data_read
      (handle_ioinstr spec_consts (tf_of 0x100000030 0 0x1000) (guest_of_size 0x4000000)
        vmcs_rtc_index_write 0).2.2).2.1.tf_regs.reg_rax
          = ext_kb (guest_of_size 0x4000000) &&& 0xFF :=
  (handle_ioinstr_latches_low_32_bits spec_consts (guest_of_size 0x4000000)
    (tf_of 0x100000030 0 0x1000) (tf_of 0 0 0x1001) vmcs_rtc_index_write vmcs_rtc_data_read 0
    (by decide) (by decide) (by decide)).2.2.2.2.2.1 (by decide)

/-! ## Unhandled exits other than the message receive -/

theorem handle_rdmsr_unhandled_keeps_tf (k : Consts) (tf tf1 : Trapframe) (ginfo : VmxGuestInfo)
    (vmcs : Vmcs) (h : handle_rdmsr k tf ginfo vmcs = .ok (false, tf1)) : tf1 = tf := by
  by_cases c : tf.tf_regs.reg_rcx = k.EFER_MSR
  · simp only [handle_rdmsr, c, if_true] at h
    cases hf : find_msr_in_region k.EFER_MSR ginfo.msr_guest_area ginfo.msr_count with
    | none => rw [hf] at h; simp at h
    | some e => rw [hf] at h; simp at h
  · simp only [handle_rdmsr, c, if_false] at h
    simp at h; exact h.symm

theorem handle_wrmsr_unhandled_keeps_tf (k : Consts) (tf tf1 : Trapframe)
    (ginfo ginfo1 : VmxGuestInfo) (vmcs vmcs1 : Vmcs)
    (h : handle_wrmsr k tf ginfo vmcs = .ok (false, tf1, ginfo1, vmcs1)) : tf1 = tf := by
  by_cases c : tf.tf_regs.reg_rcx = k.EFER_MSR
  · simp only [handle_wrmsr, c, if_true] at h
    cases hf : find_msr_in_region k.EFER_MSR ginfo.msr_guest_area ginfo.msr_count with
    | none => rw [hf] at h; simp at h
    | some e => rw [hf] at h; simp at h
  · simp only [handle_wrmsr, c, if_false] at h
    simp at h; exact h.1.symm

theorem handle_ioinstr_unhandled_keeps_tf (k : Consts) (tf : Trapframe) (ginfo : VmxGuestInfo)
    (vmcs : Vmcs) (latch : Int) (h : (handle_ioinstr k tf ginfo vmcs latch).1 = false) :
    (handle_ioinstr k tf ginfo vmcs latch).2.1 = tf := by
  by_cases p1 : port_number vmcs = k.IO_RTC
  · by_cases i1 : is_in vmcs = true
    · simp [handle_ioinstr, p1, i1]
    · simp [handle_ioinstr, p1, i1] at h
  · by_cases p2 : port_number vmcs = k.IO_RTC + 1
    · by_cases i1 : is_in vmcs = true
      · rw [handle_ioinstr_data_read_eq k tf ginfo vmcs latch p2 i1] at h ⊢
        split_ifs at h ⊢
        simp_all
      · simp [handle_ioinstr, p1, p2, i1]
    · simp [handle_ioinstr, p1, p2]

theorem handle_vmcall_unhandled_keeps_tf (k : Consts) (tf tf1 : Trapframe)
    (gInfo : VmxGuestInfo) (vmcs : Vmcs) (s s1 : Kernel)
    (hcall : tf.tf_regs.reg_rax ≠ k.VMX_VMCALL_IPCRECV)
    (h : handle_vmcall k tf gInfo vmcs s = .ok (false, tf1, s1)) : tf1 = tf := by
  unfold handle_vmcall at h
  cases hs : handle_vmcall_switch k tf gInfo vmcs s with
  | error f => rw [hs] at h; simp at h
  | ok r =>
    obtain ⟨e, tf2, s2⟩ := r
    rw [hs] at h
    unfold handle_vmcall_switch at hs
    simp only [hcall, if_false] at hs
    cases e with
    | brk b =>
      cases b with
      | true => simp at h
      | false =>
        simp at h
        obtain ⟨rfl, rfl⟩ := h
        split_ifs at hs
        all_goals (try split at hs)
        all_goals (try split_ifs at hs)
        all_goals simp_all
    | ret b =>
      simp at h
      obtain ⟨rfl, rfl, rfl⟩ := h
      split_ifs at hs
      all_goals (try split at hs)
      all_goals (try split_ifs at hs)
      all_goals simp_all

end Vmexits
